import Mathlib

/- Shallow embedding of the nand2tetris VM-to-Hack translator
   (src/projects/07/VMTranslator.py), its parser-side helpers, and a model
   of the Hack target machine that executes the emitted assembly text.
   Symbol resolution of the emitted symbolic assembly mirrors the
   repository's own downstream assembler (src/projects/06/assembler.py):
   labels are resolved to instruction indices and unknown symbols are
   assigned fresh memory cells starting at address 16, in order of first
   appearance.  Machine words are 16-bit (arithmetic is taken mod 2 ^ 16,
   comparisons read the two's-complement signed view); the payload of an
   address instruction is 15 bits, matching the `0` + 15-bit binary layout
   produced by assembler.py's to_bin_string. -/

/- ---------------------------------------------------------------------
   Generic helpers
   --------------------------------------------------------------------- -/

/- Python's `pat in line` substring test (contiguous containment). -/
def pyIn (pat line : String) : Bool := decide (pat.data <:+: line.data)

/- Python's `s.endswith(pat)`. -/
def pyEndsWith (s pat : String) : Bool := decide (pat.data <:+ s.data)

/- Pointwise update of a memory function. -/
def upd (f : Nat → Nat) (k v : Nat) : Nat → Nat := fun i => if i = k then v else f i

/- ---------------------------------------------------------------------
   The Hack machine: instructions
   --------------------------------------------------------------------- -/

/- Destination field of a Hack computation instruction.  The translator
   only ever emits a single destination register or none. -/
inductive Dest where
  | dnone | dM | dD | dA
  deriving DecidableEq, Repr

/- Computation field.  The constructor set covers the mnemonics the
   translator emits, including `A+D` and `M+D` (which VMTranslator.py
   produces for the temp and pointer-indirected segments). -/
inductive Comp where
  | czero | cone | cnegone
  | cD | cA | cM
  | cnotD | cnotA | cnotM
  | cnegD | cnegA | cnegM
  | cDplus1 | cAplus1 | cMplus1
  | cDminus1 | cAminus1 | cMminus1
  | cDplusA | cDplusM | cAplusD | cMplusD
  | cDminusA | cDminusM | cAminusD | cMminusD
  | cDandA | cDandM | cDorA | cDorM
  deriving DecidableEq, Repr

/- Jump field. -/
inductive Jump where
  | jnull | jgt | jeq | jge | jlt | jne | jle | jmp
  deriving DecidableEq, Repr

/- One line of emitted symbolic assembly: an address instruction with a
   numeric payload, an address instruction with a symbol, a label
   definition, or a computation instruction. -/
inductive Asm where
  | aconst (n : Nat)
  | asym (s : String)
  | alabel (s : String)
  | cinstr (d : Dest) (c : Comp) (j : Jump)
  deriving DecidableEq, Repr

/- ---------------------------------------------------------------------
   Rendering structured assembly back to the exact emitted text
   --------------------------------------------------------------------- -/

def renderDest : Dest → String
  | .dnone => ""
  | .dM => "M="
  | .dD => "D="
  | .dA => "A="

def renderComp : Comp → String
  | .czero => "0"
  | .cone => "1"
  | .cnegone => "-1"
  | .cD => "D"
  | .cA => "A"
  | .cM => "M"
  | .cnotD => "!D"
  | .cnotA => "!A"
  | .cnotM => "!M"
  | .cnegD => "-D"
  | .cnegA => "-A"
  | .cnegM => "-M"
  | .cDplus1 => "D+1"
  | .cAplus1 => "A+1"
  | .cMplus1 => "M+1"
  | .cDminus1 => "D-1"
  | .cAminus1 => "A-1"
  | .cMminus1 => "M-1"
  | .cDplusA => "D+A"
  | .cDplusM => "D+M"
  | .cAplusD => "A+D"
  | .cMplusD => "M+D"
  | .cDminusA => "D-A"
  | .cDminusM => "D-M"
  | .cAminusD => "A-D"
  | .cMminusD => "M-D"
  | .cDandA => "D&A"
  | .cDandM => "D&M"
  | .cDorA => "D|A"
  | .cDorM => "D|M"

def renderJump : Jump → String
  | .jnull => ""
  | .jgt => ";JGT"
  | .jeq => ";JEQ"
  | .jge => ";JGE"
  | .jlt => ";JLT"
  | .jne => ";JNE"
  | .jle => ";JLE"
  | .jmp => ";JMP"

def renderAsm : Asm → String
  | .aconst n => "@" ++ toString n ++ "\n"
  | .asym s => "@" ++ s ++ "\n"
  | .alabel s => "(" ++ s ++ ")\n"
  | .cinstr d c j => renderDest d ++ renderComp c ++ renderJump j ++ "\n"

def renderProg : List Asm → String
  | [] => ""
  | i :: rest => renderAsm i ++ renderProg rest

/- ---------------------------------------------------------------------
   Assembling: label collection and symbol resolution, mirroring the
   two passes of src/projects/06/assembler.py
   --------------------------------------------------------------------- -/

/- Resolved instructions: label definitions are gone, symbols are
   numeric addresses. -/
inductive Instr where
  | iA (v : Nat)
  | iC (d : Dest) (c : Comp) (j : Jump)
  deriving DecidableEq, Repr

/- The assembler's predefined symbol table (assembler.py lines 17-21). -/
def predefinedSymbol (s : String) : Option Nat :=
  ([("SP", 0), ("LCL", 1), ("ARG", 2), ("THIS", 3), ("THAT", 4),
    ("SCREEN", 16384), ("KBD", 24576),
    ("R0", 0), ("R1", 1), ("R2", 2), ("R3", 3), ("R4", 4), ("R5", 5),
    ("R6", 6), ("R7", 7), ("R8", 8), ("R9", 9), ("R10", 10), ("R11", 11),
    ("R12", 12), ("R13", 13), ("R14", 14), ("R15", 15)] :
    List (String × Nat)).lookup s

/- First pass (assembler.py fill_symbol_table): map each label definition
   to the index of the next real instruction. -/
def labelPass : List Asm → Nat → List (String × Nat)
  | [], _ => []
  | .alabel s :: rest, idx => (s, idx) :: labelPass rest idx
  | _ :: rest, idx => labelPass rest (idx + 1)

/- Second pass (assembler.py second_pass): collect the symbols that are
   neither predefined nor labels, in order of first appearance.  They are
   assigned the memory cells 16, 17, ... -/
def collectVars (labels : List (String × Nat)) : List Asm → List String → List String
  | [], acc => acc.reverse
  | .asym s :: rest, acc =>
    if (predefinedSymbol s).isSome || (labels.lookup s).isSome || s ∈ acc then
      collectVars labels rest acc
    else
      collectVars labels rest (s :: acc)
  | _ :: rest, acc => collectVars labels rest acc

def idxOf : List String → String → Nat
  | [], _ => 0
  | s :: rest, t => if s = t then 0 else idxOf rest t + 1

def resolveSym (labels : List (String × Nat)) (vars : List String) (s : String) : Nat :=
  match predefinedSymbol s with
  | some n => n
  | none =>
    match labels.lookup s with
    | some n => n
    | none => 16 + idxOf vars s

def assemble (prog : List Asm) : List Instr :=
  let labels := labelPass prog 0
  let vars := collectVars labels prog []
  prog.filterMap fun
    | .aconst n => some (.iA n)
    | .asym s => some (.iA (resolveSym labels vars s))
    | .alabel _ => none
    | .cinstr d c j => some (.iC d c j)

/- ---------------------------------------------------------------------
   Machine semantics
   --------------------------------------------------------------------- -/

structure MState where
  ram : Nat → Nat
  a : Nat
  d : Nat
  pc : Nat

def n16 (x : Nat) : Nat := x % 65536

/- Wrap-around subtraction on 16-bit words. -/
def wsub (x y : Nat) : Nat := (x + (65536 - y % 65536)) % 65536

/- Two's-complement signed reading of a 16-bit word. -/
def signedView (w : Nat) : Int := if w < 32768 then (w : Int) else (w : Int) - 65536

def evalComp (s : MState) : Comp → Nat
  | .czero => 0
  | .cone => 1
  | .cnegone => 65535
  | .cD => n16 s.d
  | .cA => n16 s.a
  | .cM => n16 (s.ram s.a)
  | .cnotD => 65535 - n16 s.d
  | .cnotA => 65535 - n16 s.a
  | .cnotM => 65535 - n16 (s.ram s.a)
  | .cnegD => (65536 - n16 s.d) % 65536
  | .cnegA => (65536 - n16 s.a) % 65536
  | .cnegM => (65536 - n16 (s.ram s.a)) % 65536
  | .cDplus1 => (s.d + 1) % 65536
  | .cAplus1 => (s.a + 1) % 65536
  | .cMplus1 => (s.ram s.a + 1) % 65536
  | .cDminus1 => (s.d + 65535) % 65536
  | .cAminus1 => (s.a + 65535) % 65536
  | .cMminus1 => (s.ram s.a + 65535) % 65536
  | .cDplusA => (s.d + s.a) % 65536
  | .cDplusM => (s.d + s.ram s.a) % 65536
  | .cAplusD => (s.a + s.d) % 65536
  | .cMplusD => (s.ram s.a + s.d) % 65536
  | .cDminusA => wsub s.d s.a
  | .cDminusM => wsub s.d (s.ram s.a)
  | .cAminusD => wsub s.a s.d
  | .cMminusD => wsub (s.ram s.a) s.d
  | .cDandA => Nat.land (n16 s.d) (n16 s.a)
  | .cDandM => Nat.land (n16 s.d) (n16 (s.ram s.a))
  | .cDorA => Nat.lor (n16 s.d) (n16 s.a)
  | .cDorM => Nat.lor (n16 s.d) (n16 (s.ram s.a))

def applyDest (d : Dest) (v : Nat) (s : MState) : MState :=
  match d with
  | .dnone => s
  | .dM => { s with ram := upd s.ram s.a v }
  | .dD => { s with d := v }
  | .dA => { s with a := v }

def jumpTaken (j : Jump) (v : Nat) : Bool :=
  match j with
  | .jnull => false
  | .jgt => decide (0 < signedView v)
  | .jeq => decide (signedView v = 0)
  | .jge => decide (0 ≤ signedView v)
  | .jlt => decide (signedView v < 0)
  | .jne => decide (signedView v ≠ 0)
  | .jle => decide (signedView v ≤ 0)
  | .jmp => true

/- One instruction.  An address instruction loads its 15-bit payload into
   the A register; a computation instruction evaluates its comp field,
   writes the destination, and jumps to the instruction whose index is the
   value of A when its jump condition holds. -/
def stepInstr (i : Instr) (s : MState) : MState :=
  match i with
  | .iA v => { s with a := v % 32768, pc := s.pc + 1 }
  | .iC d c j =>
    let v := evalComp s c
    let s1 := applyDest d v s
    if jumpTaken j v then { s1 with pc := s1.a } else { s1 with pc := s.pc + 1 }

/- Fuelled execution; the machine idles once the counter leaves the
   program. -/
def run (prog : List Instr) : Nat → MState → MState
  | 0, s => s
  | fuel + 1, s =>
    match prog[s.pc]? with
    | none => s
    | some i => run prog fuel (stepInstr i s)

/- One fetch-execute step, used to unfold run one instruction at a
   time. -/
def step1 (prog : List Instr) (s : MState) : MState :=
  match prog[s.pc]? with
  | none => s
  | some i => stepInstr i s

/- ---------------------------------------------------------------------
   VMTranslator.py, parser side
   --------------------------------------------------------------------- -/

/- The nine command kinds of the CommandType enum. -/
inductive CommandType where
  | C_ARITHMETIC | C_PUSH | C_POP | C_LABEL | C_GOTO | C_IF
  | C_FUNCTION | C_RETURN | C_CALL
  deriving DecidableEq, Repr

/- Parser.command_type (VMTranslator.py lines 51-80): classification by
   keyword containment over the cleaned line, in the source's fixed order.
   The final duplicate `return` test of the Python chain is unreachable;
   the fall-through ValueError is modelled by none. -/
def commandType (line : String) : Option CommandType :=
  if pyIn "push" line then some .C_PUSH
  else if pyIn "pop" line then some .C_POP
  else if pyIn "label" line then some .C_LABEL
  else if (["eq", "gt", "lt", "and", "or", "not"].any fun x => pyIn x line) then
    some .C_ARITHMETIC
  else if pyIn "if-goto" line then some .C_IF
  else if pyIn "goto" line then some .C_GOTO
  else if (["add", "sub", "neg"].any fun x => pyIn x line) then some .C_ARITHMETIC
  else if pyIn "return" line then some .C_RETURN
  else if pyIn "call" line then some .C_CALL
  else if pyIn "function" line then some .C_FUNCTION
  else none

/- The character class of the label grammar
   regex ^[a-zA-Z_.$:][a-zA-Z_.$:0-9]*$ (VMTranslator.py line 85). -/
def labelStartChar (c : Char) : Bool :=
  c.isAlpha || c = '_' || c = '.' || c = '$' || c = ':'

def labelRestChar (c : Char) : Bool := labelStartChar c || c.isDigit

/- Parser.is_valid_label_name (lines 82-86): the identifier grammar above,
   with the literal name END additionally rejected. -/
def isValidLabelName (label : String) : Bool :=
  (match label.data with
   | [] => false
   | c :: cs => labelStartChar c && cs.all labelRestChar) && !(label == "END")

/- Parser._basename (lines 88-94): everything left of the first dot, then
   everything right of the last slash.  (The Python version asserts the
   name contains a dot; every use below satisfies that.) -/
def basename (filename : String) : String :=
  ⟨((filename.data.takeWhile fun c => c ≠ '.').reverse.takeWhile fun c => c ≠ '/').reverse⟩

/- Parser.scoped_label (lines 96-98). -/
def scopedLabel (filename label : String) : String :=
  basename filename ++ "." ++ label

/- Python str.capitalize applied to a single ASCII character, as in
   Parser.__init__'s check `source[0].capitalize() == source[0]`. -/
def pyCapitalizeChar (c : Char) : Char := c.toUpper

/- Parser.__init__ (lines 22-31): the constructor's two assertions, in
   Python evaluation order (the extension test runs first, so the first
   character is only inspected for names that end in ".vm" and are hence
   nonempty).  File I/O is not modelled; this is the pure validity check. -/
def parserInitOk (source : String) : Bool :=
  pyEndsWith source ".vm" &&
    (match source.data with
     | [] => false
     | c :: _ => pyCapitalizeChar c == c)

/- ---------------------------------------------------------------------
   VMTranslator.py, CodeWriter
   --------------------------------------------------------------------- -/

/- Emitter state: output module name plus the two monotonic counters.
   CodeWriter.__init__ calls reset, which zeroes both counters (lines
   136-145); emitted text is returned by each operation below instead of
   being appended to a file. -/
structure CodeWriter where
  filename : String
  arithmeticCounter : Nat
  callCounter : Nat
  deriving DecidableEq, Repr

def mkCodeWriter (outputFilename : String) : CodeWriter :=
  { filename := outputFilename, arithmeticCounter := 0, callCounter := 0 }

/- The _SEGMENTS dictionary (lines 124-130). -/
def segmentRegister (segment : String) : Option String :=
  ([("local", "LCL"), ("argument", "ARG"), ("temp", "TEMP"),
    ("this", "THIS"), ("that", "THAT")] : List (String × String)).lookup segment

/- CodeWriter._compute_target_address (lines 152-183).  none models the
   assertion failure on an unknown segment and the ValueError on a pointer
   index other than 0/1. -/
def computeTargetAddress (filename segment : String) (index : Nat) (register : String) :
    Option String :=
  if segment = "pointer" then
    if index = 0 then some "@THIS\n"
    else if index = 1 then some "@THAT\n"
    else none
  else if segment = "static" then
    some ("@" ++ scopedLabel filename (toString index) ++ "\n")
  else if segment = "temp" then
    some ("@" ++ toString index ++ "\nD=A\n" ++ "@5\n" ++ register ++ "=A+D\n")
  else
    match segmentRegister segment with
    | none => none
    | some base =>
      some ("@" ++ toString index ++ "\nD=A\n" ++ "@" ++ base ++ "\n" ++ register ++ "=M+D\n")

/- CodeWriter._pop_cmds and _push_cmds (lines 185-199). -/
def popCmds : String := "@SP\nM=M-1\nA=M\nD=M\n"

def pushCmds : String := "@SP\nM=M+1\nA=M-1\nM=D\n"

/- CodeWriter.write_push_pop (lines 201-240).  A pop of the constant
   pseudo-segment returns before anything is emitted; the emitted text for
   the other cases is returned. -/
def writePushPop (filename : String) (command : CommandType) (segment : String)
    (index : Nat) : Option String :=
  if command = .C_POP then
    if segment = "constant" then some ""
    else
      match computeTargetAddress filename segment index "D" with
      | none => none
      | some target =>
        some (target ++ "@R13\nM=D\n" ++ popCmds ++ "@R13\nA=M\nM=D\n")
  else
    if segment = "constant" then
      some ("@" ++ toString index ++ "\nD=A\n" ++ pushCmds)
    else
      match computeTargetAddress filename segment index "A" with
      | none => none
      | some target => some (target ++ "D=M\n" ++ pushCmds)

/- CodeWriter.write_arithmetic (lines 242-321): the emitted text plus the
   updated writer (the arithmetic counter advances on success).  none
   models the ValueError on an unknown operator. -/
def writeArithmetic (w : CodeWriter) (command : String) : Option (String × CodeWriter) :=
  let base := "@SP\nM=M-1\n" ++ "A=M\nD=M\n"
  let scopedEnd := scopedLabel w.filename ("END" ++ toString w.arithmeticCounter)
  let body : Option String :=
    if command = "add" then some (base ++ "A=A-1\n" ++ "M=M+D\n")
    else if command = "sub" then some (base ++ "A=A-1\n" ++ "M=M-D\n")
    else if command = "neg" then
      some "@SP\nA=M-1\nD=M\n@0\nD=A-D\n@SP\nA=M-1\nM=D\n"
    else if command = "eq" ∨ command = "lt" ∨ command = "gt" then
      some (base ++ "A=A-1\nD=D-M\n" ++ "@TRUE" ++ toString w.arithmeticCounter ++ "\n" ++
        (if command = "eq" then "D;JEQ\n" else if command = "lt" then "D;JGT\n" else "D;JLT\n") ++
        "@SP\nA=M-1\nM=0\n" ++ "@" ++ scopedEnd ++ "\n" ++ "0;JMP\n" ++
        "(TRUE" ++ toString w.arithmeticCounter ++ ")\n" ++ "@SP\nA=M-1\nM=-1\n")
    else if command = "and" then some (base ++ "A=A-1\n" ++ "M=M&D\n")
    else if command = "or" then some (base ++ "A=A-1\n" ++ "M=M|D\n")
    else if command = "not" then
      some "@SP\nA=M-1\nD=M\n@0\nD=A-D\nD=D-1\n@SP\nA=M-1\nM=D\n"
    else none
  match body with
  | none => none
  | some out =>
    some ((if command = "add" ∨ command = "sub" ∨ command = "neg" then out
           else out ++ "(" ++ scopedEnd ++ ")\n"),
          { w with arithmeticCounter := w.arithmeticCounter + 1 })

/- CodeWriter.write_label, write_goto, write_if_goto (lines 323-340). -/
def writeLabel (locationName : String) : String := "(" ++ locationName ++ ")\n"

def writeGoto (locationName : String) : String := "@" ++ locationName ++ "\n0;JMP\n"

def writeIfGoto (locationName : String) : String :=
  popCmds ++ "@" ++ locationName ++ "\nD;JNE\n"

def joinReplicate : Nat → String → String
  | 0, _ => ""
  | n + 1, s => s ++ joinReplicate n s

/- CodeWriter.write_function (lines 342-349): scoped entry label followed
   by num_vars pushes of constant 0. -/
def writeFunction (filename functionName : String) (numVars : Nat) : Option String :=
  match writePushPop filename .C_PUSH "constant" 0 with
  | none => none
  | some pushZero =>
    some (writeLabel (scopedLabel filename functionName) ++ joinReplicate numVars pushZero)

/- CodeWriter.write_call (lines 351-398).  The source computes
   return_addr_out (the push of the return address) on line 360 but never
   passes it to _write_to_file, so it is absent from the emitted text; the
   binding is kept here to mirror the source. -/
def writeCall (w : CodeWriter) (functionName : String) (numArgs : Nat) :
    Option (String × CodeWriter) :=
  let scopedFunctionName := scopedLabel w.filename functionName
  let returnAddr := scopedFunctionName ++ "$ret." ++ toString w.callCounter
  let _returnAddrOut := "@" ++ returnAddr ++ "\n" ++ "D=A\n" ++ pushCmds
  let saveFramePiece : String × Nat → Option String := fun si =>
    match computeTargetAddress w.filename si.1 si.2 "D" with
    | none => none
    | some target => some (target ++ pushCmds)
  match saveFramePiece ("local", 0), saveFramePiece ("argument", 0),
      saveFramePiece ("pointer", 0), saveFramePiece ("pointer", 1) with
  | some p1, some p2, some p3, some p4 =>
    let saveFrame := p1 ++ p2 ++ p3 ++ p4
    let setArg := "@SP\nD=M\n@5\nD=D-A\n" ++ "@" ++ toString numArgs ++ "\n" ++
      "D=D-A\n@ARG\nM=D\n"
    let setLcl := "@SP\nD=M\n@LCL\nM=D\n"
    some (saveFrame ++ setArg ++ setLcl ++ writeGoto functionName ++ writeLabel returnAddr,
          { w with callCounter := w.callCounter + 1 })
  | _, _, _, _ => none

/- CodeWriter.write_return (lines 400-453). -/
def writeReturn (filename : String) : Option String :=
  match computeTargetAddress filename "local" 0 "A" with
  | none => none
  | some addressLCL =>
    let restorePiece : Nat × String → String := fun os =>
      "@frame\nD=M\n" ++ "@" ++ toString os.1 ++ "\n" ++ "A=D-A\nD=M\n" ++
        "@" ++ os.2 ++ "\n" ++ "M=D\n"
    some (addressLCL ++ "D=A\n" ++ "@frame\nM=D\n" ++
      "@5\nD=D-A\n@retAddr\nM=D\n" ++
      (popCmds ++ "@ARG\nA=M\nM=D\n") ++
      "@ARG\nD=M+1\n@SP\nM=D\n" ++
      restorePiece (1, "THAT") ++ restorePiece (2, "THIS") ++
      restorePiece (3, "ARG") ++ restorePiece (4, "LCL") ++
      writeGoto "retAddr")

/- CodeWriter.write_end_loop (lines 455-458). -/
def writeEndLoop (filename : String) : String :=
  writeLabel (scopedLabel filename "END") ++ writeGoto (scopedLabel filename "END")

/- ---------------------------------------------------------------------
   VMTranslator.py, driver dispatch (__main__, lines 469-517)
   --------------------------------------------------------------------- -/

/- One parsed VM command, as dispatched by the driver loop. -/
inductive VMCmd where
  | push (segment : String) (index : Nat)
  | pop (segment : String) (index : Nat)
  | arith (op : String)
  | label (name : String)
  | goto (name : String)
  | ifgoto (name : String)
  | func (name : String) (numVars : Nat)
  | call (name : String) (numArgs : Nat)
  | ret
  deriving DecidableEq, Repr

/- The driver's per-command dispatch, including its scoping and validity
   check for user labels (lines 491-495). -/
def emitCommand (w : CodeWriter) : VMCmd → Option (String × CodeWriter)
  | .push segment index => (writePushPop w.filename .C_PUSH segment index).map fun s => (s, w)
  | .pop segment index => (writePushPop w.filename .C_POP segment index).map fun s => (s, w)
  | .arith op => writeArithmetic w op
  | .label name =>
    let sname := scopedLabel w.filename name
    if isValidLabelName sname then some (writeLabel sname, w) else none
  | .goto name =>
    let sname := scopedLabel w.filename name
    if isValidLabelName sname then some (writeGoto sname, w) else none
  | .ifgoto name =>
    let sname := scopedLabel w.filename name
    if isValidLabelName sname then some (writeIfGoto sname, w) else none
  | .func name numVars => (writeFunction w.filename name numVars).map fun s => (s, w)
  | .call name numArgs => writeCall w name numArgs
  | .ret => (writeReturn w.filename).map fun s => (s, w)

/- Translating a command sequence: outputs are concatenated in order and
   the writer state is threaded through, as the driver loop does. -/
def runWriter (w : CodeWriter) : List VMCmd → Option (String × CodeWriter)
  | [] => some ("", w)
  | c :: rest =>
    match emitCommand w c with
    | none => none
    | some (out, w1) =>
      match runWriter w1 rest with
      | none => none
      | some (outs, w2) => some (out ++ outs, w2)

/- ---------------------------------------------------------------------
   Structured forms of the emitted programs the claims execute.
   Each list renders (renderProg) to exactly the text the embedded
   emitters produce; the bridge equations are proved with the claims.
   --------------------------------------------------------------------- -/

/- _push_cmds as instructions. -/
def pushCmdsA : List Asm :=
  [.asym "SP", .cinstr .dM .cMplus1 .jnull, .cinstr .dA .cMminus1 .jnull,
   .cinstr .dM .cD .jnull]

/- _pop_cmds as instructions. -/
def popCmdsA : List Asm :=
  [.asym "SP", .cinstr .dM .cMminus1 .jnull, .cinstr .dA .cM .jnull,
   .cinstr .dD .cM .jnull]

/- The translation of `push constant c`. -/
def pushConstA (c : Nat) : List Asm :=
  [.aconst c, .cinstr .dD .cA .jnull] ++ pushCmdsA

/- The translation of `pop local 0`. -/
def popLocal0A : List Asm :=
  [.aconst 0, .cinstr .dD .cA .jnull, .asym "LCL", .cinstr .dD .cMplusD .jnull,
   .asym "R13", .cinstr .dM .cD .jnull] ++ popCmdsA ++
  [.asym "R13", .cinstr .dA .cM .jnull, .cinstr .dM .cD .jnull]

/- The translation of `push constant c` followed by `pop local 0`. -/
def pushPopProgA (c : Nat) : List Asm := pushConstA c ++ popLocal0A

/- The translation of a comparison operator by a fresh writer for module
   Foo: jump is JGT for lt, JLT for gt, JEQ for eq. -/
def cmpBlockA (j : Jump) : List Asm :=
  [.asym "SP", .cinstr .dM .cMminus1 .jnull, .cinstr .dA .cM .jnull,
   .cinstr .dD .cM .jnull, .cinstr .dA .cAminus1 .jnull,
   .cinstr .dD .cDminusM .jnull, .asym "TRUE0", .cinstr .dnone .cD j,
   .asym "SP", .cinstr .dA .cMminus1 .jnull, .cinstr .dM .czero .jnull,
   .asym "Foo.END0", .cinstr .dnone .czero .jmp, .alabel "TRUE0",
   .asym "SP", .cinstr .dA .cMminus1 .jnull, .cinstr .dM .cnegone .jnull,
   .alabel "Foo.END0"]

/- `push constant x; push constant y; <comparison>` for module Foo. -/
def cmpProgA (j : Jump) (x y : Nat) : List Asm :=
  pushConstA x ++ pushConstA y ++ cmpBlockA j

/- The translation of `call f 1` by a fresh writer for module Foo
   (the text writeCall emits: four saved slots, no return-address push,
   ARG and LCL setup, jump, return label). -/
def callProgA : List Asm :=
  ([.aconst 0, .cinstr .dD .cA .jnull, .asym "LCL", .cinstr .dD .cMplusD .jnull] ++
    pushCmdsA) ++
  ([.aconst 0, .cinstr .dD .cA .jnull, .asym "ARG", .cinstr .dD .cMplusD .jnull] ++
    pushCmdsA) ++
  ([.asym "THIS"] ++ pushCmdsA) ++
  ([.asym "THAT"] ++ pushCmdsA) ++
  [.asym "SP", .cinstr .dD .cM .jnull, .aconst 5, .cinstr .dD .cDminusA .jnull,
   .aconst 1, .cinstr .dD .cDminusA .jnull, .asym "ARG", .cinstr .dM .cD .jnull] ++
  [.asym "SP", .cinstr .dD .cM .jnull, .asym "LCL", .cinstr .dM .cD .jnull] ++
  [.asym "f", .cinstr .dnone .czero .jmp] ++
  [.alabel "Foo.f$ret.0"]

/- Initial machine states used by the execution claims.  The stack begins
   at 256 (the Hack convention); for the push/pop claim the local segment
   base is 1000, and for the call claim the caller's pointers hold the
   distinct values LCL=300, ARG=400, THIS=3000, THAT=3010 with SP=260. -/
def cmpInit : MState := ⟨upd (fun _ => 0) 0 256, 0, 0, 0⟩

def c6Init : MState := ⟨upd (upd (fun _ => 0) 0 256) 1 1000, 0, 0, 0⟩

def callInit : MState :=
  ⟨upd (upd (upd (upd (upd (fun _ => 0) 0 260) 1 300) 2 400) 3 3000) 4 3010, 0, 0, 0⟩

/- The output text of write_arithmetic for a fresh writer of the given
   module (empty on the error path). -/
def arithOut (f op : String) : String :=
  ((writeArithmetic (mkCodeWriter f) op).map Prod.fst).getD ""

/- The end-branch label write_arithmetic scopes with the module name
   (VMTranslator.py lines 249-251). -/
def arithEndLabel (f : String) (n : Nat) : String :=
  scopedLabel f ("END" ++ toString n)

/- The true-branch label write_arithmetic embeds without module scoping
   (lines 274 and 288). -/
def arithTrueLabel (n : Nat) : String := "TRUE" ++ toString n

/- Modelled from the spec: the claimed branching rule for lt, quoted from
   the claim "the emitted code for less-than computes the difference
   (second-from-top − top) and branches on greater-than-zero", with the
   all-ones/all-zero boolean encoding.  This definition follows the
   claim's words, for comparison against the executed code. -/
def specClaimedLtResult (secondFromTop top : Nat) : Nat :=
  if 0 < (secondFromTop : Int) - (top : Int) then 65535 else 0

/- Pre-resolved instruction lists (the images of the structured programs
   under assemble; the equations are established by rfl in the proofs). -/

def c6Instr (c : Nat) : List Instr :=
  [.iA c, .iC .dD .cA .jnull,
   .iA 0, .iC .dM .cMplus1 .jnull, .iC .dA .cMminus1 .jnull, .iC .dM .cD .jnull,
   .iA 0, .iC .dD .cA .jnull, .iA 1, .iC .dD .cMplusD .jnull,
   .iA 13, .iC .dM .cD .jnull,
   .iA 0, .iC .dM .cMminus1 .jnull, .iC .dA .cM .jnull, .iC .dD .cM .jnull,
   .iA 13, .iC .dA .cM .jnull, .iC .dM .cD .jnull]

def cmpInstr (j : Jump) (x y : Nat) : List Instr :=
  [.iA x, .iC .dD .cA .jnull,
   .iA 0, .iC .dM .cMplus1 .jnull, .iC .dA .cMminus1 .jnull, .iC .dM .cD .jnull,
   .iA y, .iC .dD .cA .jnull,
   .iA 0, .iC .dM .cMplus1 .jnull, .iC .dA .cMminus1 .jnull, .iC .dM .cD .jnull,
   .iA 0, .iC .dM .cMminus1 .jnull, .iC .dA .cM .jnull, .iC .dD .cM .jnull,
   .iC .dA .cAminus1 .jnull, .iC .dD .cDminusM .jnull,
   .iA 25, .iC .dnone .cD j,
   .iA 0, .iC .dA .cMminus1 .jnull, .iC .dM .czero .jnull,
   .iA 28, .iC .dnone .czero .jmp,
   .iA 0, .iC .dA .cMminus1 .jnull, .iC .dM .cnegone .jnull]

def callInstr : List Instr :=
  [.iA 0, .iC .dD .cA .jnull, .iA 1, .iC .dD .cMplusD .jnull,
   .iA 0, .iC .dM .cMplus1 .jnull, .iC .dA .cMminus1 .jnull, .iC .dM .cD .jnull,
   .iA 0, .iC .dD .cA .jnull, .iA 2, .iC .dD .cMplusD .jnull,
   .iA 0, .iC .dM .cMplus1 .jnull, .iC .dA .cMminus1 .jnull, .iC .dM .cD .jnull,
   .iA 3,
   .iA 0, .iC .dM .cMplus1 .jnull, .iC .dA .cMminus1 .jnull, .iC .dM .cD .jnull,
   .iA 4,
   .iA 0, .iC .dM .cMplus1 .jnull, .iC .dA .cMminus1 .jnull, .iC .dM .cD .jnull,
   .iA 0, .iC .dD .cM .jnull, .iA 5, .iC .dD .cDminusA .jnull,
   .iA 1, .iC .dD .cDminusA .jnull, .iA 2, .iC .dM .cD .jnull,
   .iA 0, .iC .dD .cM .jnull, .iA 1, .iC .dM .cD .jnull,
   .iA 16, .iC .dnone .czero .jmp]

/- ---------------------------------------------------------------------
   Theorems
   --------------------------------------------------------------------- -/

/-- Claim C7: a pop of the constant pseudo-segment is a guaranteed no-op
for every index: write_push_pop raises no error and emits no text. -/
theorem pop_constant_noop (filename : String) (index : Nat) :
    writePushPop filename .C_POP "constant" index = some "" := rfl

/-- Claim C8: a freshly constructed emitter starts both counters at zero,
and translating one command sequence through two independently constructed
emitters for the same output filename yields identical output. -/
theorem fresh_emitters_identical (f : String) (cmds : List VMCmd) (w₁ w₂ : CodeWriter)
    (h₁ : w₁ = mkCodeWriter f) (h₂ : w₂ = mkCodeWriter f) :
    w₁.arithmeticCounter = 0 ∧ w₁.callCounter = 0 ∧
      runWriter w₁ cmds = runWriter w₂ cmds := by
  subst h₁; subst h₂; exact ⟨rfl, rfl, rfl⟩

/-- Witness for C8 at a concrete filename and command list. -/
theorem fresh_emitters_identical_witness :
    (mkCodeWriter "Foo.asm").arithmeticCounter = 0 ∧
      (mkCodeWriter "Foo.asm").callCounter = 0 ∧
      runWriter (mkCodeWriter "Foo.asm") [.arith "add", .arith "lt"] =
        runWriter (mkCodeWriter "Foo.asm") [.arith "add", .arith "lt"] :=
  fresh_emitters_identical "Foo.asm" [.arith "add", .arith "lt"]
    (mkCodeWriter "Foo.asm") (mkCodeWriter "Foo.asm") rfl rfl

/-- Claim C5 (code evaluated at the failing input): is_valid_label_name
itself rejects END, but the driver checks the module-scoped name, which is
Foo.END for a user label END in module Foo; that name passes the check, the
label is emitted, and it coincides with the end-of-program label text that
write_end_loop emits. -/
theorem user_label_END_is_emitted :
    isValidLabelName "END" = false ∧
    isValidLabelName (scopedLabel "Foo.asm" "END") = true ∧
    emitCommand (mkCodeWriter "Foo.asm") (.label "END") =
      some (writeLabel (scopedLabel "Foo.asm" "END"), mkCodeWriter "Foo.asm") ∧
    writeLabel (scopedLabel "Foo.asm" "END") = "(Foo.END)\n" ∧
    pyIn "(Foo.END)\n" (writeEndLoop "Foo.asm") = true :=
  ⟨by decide, by decide, rfl, rfl, by decide⟩

set_option maxRecDepth 20000 in
/-- Claim C2 (code evaluated at the failing input): the exact text
write_call emits for call f 2 from a fresh writer of module Foo.  The text
contains no push of the return-address (the label Foo.f$ret.0 is never
loaded with an address instruction, only defined), its jump targets the
unscoped name f rather than the module-scoped Foo.f, and the two
direct-pointer slots are filled by pushing the stale D register (the text
after THIS/THAT loads the address register only). -/
theorem writeCall_emitted_text :
    writeCall (mkCodeWriter "Foo.asm") "f" 2 =
      some ("@0\nD=A\n@LCL\nD=M+D\n@SP\nM=M+1\nA=M-1\nM=D\n@0\nD=A\n@ARG\nD=M+D\n@SP\nM=M+1\nA=M-1\nM=D\n@THIS\n@SP\nM=M+1\nA=M-1\nM=D\n@THAT\n@SP\nM=M+1\nA=M-1\nM=D\n@SP\nD=M\n@5\nD=D-A\n@2\nD=D-A\n@ARG\nM=D\n@SP\nD=M\n@LCL\nM=D\n@f\n0;JMP\n(Foo.f$ret.0)\n",
            { filename := "Foo.asm", arithmeticCounter := 0, callCounter := 1 }) ∧
    pyIn "@f\n0;JMP\n" (((writeCall (mkCodeWriter "Foo.asm") "f" 2).map Prod.fst).getD "") = true ∧
    pyIn "@Foo.f\n" (((writeCall (mkCodeWriter "Foo.asm") "f" 2).map Prod.fst).getD "") = false ∧
    pyIn "@Foo.f$ret.0\n" (((writeCall (mkCodeWriter "Foo.asm") "f" 2).map Prod.fst).getD "") = false ∧
    pyIn "(Foo.f$ret.0)\n" (((writeCall (mkCodeWriter "Foo.asm") "f" 2).map Prod.fst).getD "") = true ∧
    pyIn ("@THIS\n" ++ pushCmds) (((writeCall (mkCodeWriter "Foo.asm") "f" 2).map Prod.fst).getD "") = true :=
  ⟨rfl, by decide, by decide, by decide, by decide, by decide⟩

set_option maxRecDepth 20000 in
/-- Claim C4 (counterexample): the true-branch label of the first
comparison is the unscoped text TRUE0 in both module A and module B, so a
comparison branch label emitted by one module is textually identical to
one emitted by the other. -/
theorem true_label_collides_across_modules :
    pyIn ("(" ++ arithTrueLabel 0 ++ ")\n") (arithOut "A.asm" "eq") = true ∧
    pyIn ("(" ++ arithTrueLabel 0 ++ ")\n") (arithOut "B.asm" "eq") = true ∧
    (("A.asm" : String) == "B.asm") = false :=
  ⟨by decide, by decide, by decide⟩

/- Helper: two separator-free prefixes followed by the same separator are
   determined by the concatenation. -/
theorem append_sep_inj (sep : Char) (A : List Char) :
    ∀ (B RA RB : List Char), sep ∉ A → sep ∉ B →
      A ++ sep :: RA = B ++ sep :: RB → A = B := by
  induction A with
  | nil =>
    intro B RA RB _ hB h
    cases B with
    | nil => rfl
    | cons b bs =>
      simp only [List.nil_append, List.cons_append, List.cons.injEq] at h
      exact absurd (by rw [h.1]; exact List.mem_cons_self b bs) hB
  | cons a as ih =>
    intro B RA RB hA hB h
    cases B with
    | nil =>
      simp only [List.cons_append, List.nil_append, List.cons.injEq] at h
      exact absurd (by rw [← h.1]; exact List.mem_cons_self a as) hA
    | cons b bs =>
      simp only [List.cons_append, List.cons.injEq] at h
      rw [h.1, ih bs RA RB (fun hm => hA (List.mem_cons_of_mem a hm))
        (fun hm => hB (List.mem_cons_of_mem b hm)) h.2]

/- Helper: a module base name never contains a dot, since it is cut from
   the text left of the first dot. -/
theorem basename_no_dot (f : String) : '.' ∉ (basename f).data := by
  intro hmem
  have h1 : ('.' : Char) ∈
      ((f.data.takeWhile fun c => c ≠ '.').reverse.takeWhile fun c => c ≠ '/') :=
    List.mem_reverse.mp hmem
  have h2 : ('.' : Char) ∈ (f.data.takeWhile fun c => c ≠ '.').reverse :=
    (List.takeWhile_prefix _).sublist.subset h1
  have h3 : ('.' : Char) ∈ f.data.takeWhile fun c => c ≠ '.' :=
    List.mem_reverse.mp h2
  have h4 := List.mem_takeWhile_imp h3
  simp at h4

/- Helper: end-branch labels of modules with distinct base names are
   distinct, whatever the two counter values, because the text left of the
   first dot of a scoped label is exactly the base name. -/
theorem arithEndLabel_ne (f g : String) (n m : Nat)
    (h : basename f ≠ basename g) : arithEndLabel f n ≠ arithEndLabel g m := by
  intro he
  have he2 : (basename f ++ ".") ++ ("END" ++ toString n) =
      (basename g ++ ".") ++ ("END" ++ toString m) := he
  have hd := congrArg String.data he2
  simp only [String.data_append, List.append_assoc,
    show ("." : String).data = ['.'] from rfl, List.cons_append, List.nil_append] at hd
  exact h (String.ext (append_sep_inj '.' (basename f).data (basename g).data _ _
    (basename_no_dot f) (basename_no_dot g) hd))

set_option maxRecDepth 20000 in
/-- Claim C4 (amended): the end-branch label is scoped with the module
name, so for any two modules with distinct module names (distinct output
base names) no comparison end label emitted by one is textually identical
to an end label emitted by the other, whatever the counter values; the
true-branch label is built from the counter alone and is not
module-scoped, so distinct modules emit the identical true label at equal
counter values. -/
theorem cmp_label_scoping :
    (∀ f g : String, ∀ n m : Nat, basename f ≠ basename g →
      (arithEndLabel f n == arithEndLabel g m) = false) ∧
    (∀ n : Nat, arithTrueLabel n = "TRUE" ++ toString n) ∧
    pyIn ("(" ++ arithEndLabel "A.asm" 0 ++ ")\n") (arithOut "A.asm" "eq") = true ∧
    pyIn ("(" ++ arithEndLabel "B.asm" 0 ++ ")\n") (arithOut "B.asm" "eq") = true := by
  refine ⟨?_, fun n => rfl, by decide, by decide⟩
  intro f g n m h
  rw [beq_eq_false_iff_ne]
  exact arithEndLabel_ne f g n m h

/-- Witness for C4 (amended) at the modules A.asm and B.asm with both
counters 0. -/
theorem cmp_label_scoping_witness :
    (arithEndLabel "A.asm" 0 == arithEndLabel "B.asm" 0) = false :=
  cmp_label_scoping.1 "A.asm" "B.asm" 0 0 (by decide)

/-- Claim C9 (counterexample): the line if-goto popper contains if-goto
yet is classified as a pop command, because the pop containment test runs
first. -/
theorem ifgoto_line_misclassified :
    pyIn "if-goto" "if-goto popper" = true ∧
    commandType "if-goto popper" = some CommandType.C_POP ∧
    (commandType "if-goto popper" == some CommandType.C_IF) = false :=
  ⟨by decide, by decide, by decide⟩

/-- Claim C9 (amended): classification is first-match over the source's
fixed keyword order; a line containing if-goto is never classified as a
plain goto, and is classified as if-goto whenever no earlier-checked
keyword occurs in it. -/
theorem ifgoto_classification (line : String) (h : pyIn "if-goto" line = true) :
    commandType line ≠ some CommandType.C_GOTO ∧
    (pyIn "push" line = false → pyIn "pop" line = false → pyIn "label" line = false →
      pyIn "eq" line = false → pyIn "gt" line = false → pyIn "lt" line = false →
      pyIn "and" line = false → pyIn "or" line = false → pyIn "not" line = false →
      commandType line = some CommandType.C_IF) := by
  constructor
  · simp only [commandType]
    split_ifs <;> simp_all
  · intro h1 h2 h3 h4 h5 h6 h7 h8 h9
    simp only [commandType, List.any_cons, List.any_nil,
      h1, h2, h3, h4, h5, h6, h7, h8, h9, h, Bool.false_or, Bool.or_false,
      if_true, if_false]
    rfl

/-- Witness for C9 (amended) at the line if-goto LOOP_END. -/
theorem ifgoto_classification_witness :
    commandType "if-goto LOOP_END" ≠ some CommandType.C_GOTO ∧
    (pyIn "push" "if-goto LOOP_END" = false → pyIn "pop" "if-goto LOOP_END" = false →
      pyIn "label" "if-goto LOOP_END" = false → pyIn "eq" "if-goto LOOP_END" = false →
      pyIn "gt" "if-goto LOOP_END" = false → pyIn "lt" "if-goto LOOP_END" = false →
      pyIn "and" "if-goto LOOP_END" = false → pyIn "or" "if-goto LOOP_END" = false →
      pyIn "not" "if-goto LOOP_END" = false →
      commandType "if-goto LOOP_END" = some CommandType.C_IF) :=
  ifgoto_classification "if-goto LOOP_END" (by decide)

/-- Claim C10: the constructor's validity check accepts a source name
exactly when it ends in .vm and its first character is its own
capitalization. -/
theorem parser_source_name_check (source : String) :
    parserInitOk source = true ↔
      ((['.', 'v', 'm'] <:+ source.data) ∧
        ∃ c cs, source.data = c :: cs ∧ c.toUpper = c) := by
  obtain ⟨l⟩ := source
  cases l with
  | nil => simp [parserInitOk, pyEndsWith]
  | cons c cs =>
    simp [parserInitOk, pyEndsWith, pyCapitalizeChar, List.cons.injEq]

/-- Witness for C10 at the name Foo.vm. -/
theorem parser_source_name_check_witness : parserInitOk "Foo.vm" = true :=
  (parser_source_name_check "Foo.vm").mpr
    ⟨by decide, 'F', ['o', 'o', '.', 'v', 'm'], by decide, by decide⟩

/- Helper: a machine whose counter is outside the program idles. -/
theorem run_none (prog : List Instr) (fuel : Nat) (s : MState)
    (h : prog[s.pc]? = none) : run prog fuel s = s := by
  cases fuel with
  | zero => rfl
  | succ n => simp [run, h]

/- Helper: peeling one fetch-execute step off a fuelled execution. -/
theorem runStep (prog : List Instr) (fuel : Nat) (s : MState) :
    run prog (fuel + 1) s = run prog fuel (step1 prog s) := by
  cases h : prog[s.pc]? with
  | none => rw [step1, h]; simp [run, h, run_none prog fuel s h]
  | some i => rw [step1, h]; simp [run, h]

/-- Claim C6 (amended): for every constant c representable in the 15-bit
payload of an address instruction (c < 2 ^ 15), the translation of
push constant c followed by pop local 0 is exactly the rendered structured
program, and executing it from a state with SP = 256 and local base 1000
leaves the local segment's base cell holding c and the stack pointer back
at its pre-push value 256. -/
theorem push_pop_local_roundtrip (c : Nat) (h : c < 32768) :
    runWriter (mkCodeWriter "Foo.asm") [.push "constant" c, .pop "local" 0] =
      some (renderProg (pushPopProgA c), mkCodeWriter "Foo.asm") ∧
    (run (assemble (pushPopProgA c)) 20 c6Init).ram 1000 = c ∧
    (run (assemble (pushPopProgA c)) 20 c6Init).ram 0 = 256 := by
  have hasm : assemble (pushPopProgA c) = c6Instr c := rfl
  have h0 : step1 (c6Instr c) (⟨c6Init.ram, 0, 0, 0⟩ : MState) =
      (⟨c6Init.ram, c % 32768, 0, 1⟩ : MState) := by
    simp [step1, c6Instr, c6Init, stepInstr, evalComp, applyDest, n16, jumpTaken, upd]

  have h1 : step1 (c6Instr c) (⟨c6Init.ram, c % 32768, 0, 1⟩ : MState) =
      (⟨c6Init.ram, c % 32768, c % 32768 % 65536, 2⟩ : MState) := by
    simp [step1, c6Instr, c6Init, stepInstr, evalComp, applyDest, n16, jumpTaken, upd]

  have h2 : step1 (c6Instr c) (⟨c6Init.ram, c % 32768, c % 32768 % 65536, 2⟩ : MState) =
      (⟨c6Init.ram, 0, c % 32768 % 65536, 3⟩ : MState) := by
    simp [step1, c6Instr, c6Init, stepInstr, evalComp, applyDest, n16, jumpTaken, upd]

  have h3 : step1 (c6Instr c) (⟨c6Init.ram, 0, c % 32768 % 65536, 3⟩ : MState) =
      (⟨upd (c6Init.ram) 0 (257), 0, c % 32768 % 65536, 4⟩ : MState) := by
    simp [step1, c6Instr, c6Init, stepInstr, evalComp, applyDest, n16, jumpTaken, upd]

  have h4 : step1 (c6Instr c) (⟨upd (c6Init.ram) 0 (257), 0, c % 32768 % 65536, 4⟩ : MState) =
      (⟨upd (c6Init.ram) 0 (257), 256, c % 32768 % 65536, 5⟩ : MState) := by
    simp [step1, c6Instr, c6Init, stepInstr, evalComp, applyDest, n16, jumpTaken, upd]

  have h5 : step1 (c6Instr c) (⟨upd (c6Init.ram) 0 (257), 256, c % 32768 % 65536, 5⟩ : MState) =
      (⟨upd (upd (c6Init.ram) 0 (257)) 256 (c % 32768 % 65536 % 65536), 256, c % 32768 % 65536, 6⟩ : MState) := by
    simp [step1, c6Instr, c6Init, stepInstr, evalComp, applyDest, n16, jumpTaken, upd]

  have h6 : step1 (c6Instr c) (⟨upd (upd (c6Init.ram) 0 (257)) 256 (c % 32768 % 65536 % 65536), 256, c % 32768 % 65536, 6⟩ : MState) =
      (⟨upd (upd (c6Init.ram) 0 (257)) 256 (c % 32768 % 65536 % 65536), 0, c % 32768 % 65536, 7⟩ : MState) := by
    simp [step1, c6Instr, c6Init, stepInstr, evalComp, applyDest, n16, jumpTaken, upd]

  have h7 : step1 (c6Instr c) (⟨upd (upd (c6Init.ram) 0 (257)) 256 (c % 32768 % 65536 % 65536), 0, c % 32768 % 65536, 7⟩ : MState) =
      (⟨upd (upd (c6Init.ram) 0 (257)) 256 (c % 32768 % 65536 % 65536), 0, 0, 8⟩ : MState) := by
    simp [step1, c6Instr, c6Init, stepInstr, evalComp, applyDest, n16, jumpTaken, upd]

  have h8 : step1 (c6Instr c) (⟨upd (upd (c6Init.ram) 0 (257)) 256 (c % 32768 % 65536 % 65536), 0, 0, 8⟩ : MState) =
      (⟨upd (upd (c6Init.ram) 0 (257)) 256 (c % 32768 % 65536 % 65536), 1, 0, 9⟩ : MState) := by
    simp [step1, c6Instr, c6Init, stepInstr, evalComp, applyDest, n16, jumpTaken, upd]

  have h9 : step1 (c6Instr c) (⟨upd (upd (c6Init.ram) 0 (257)) 256 (c % 32768 % 65536 % 65536), 1, 0, 9⟩ : MState) =
      (⟨upd (upd (c6Init.ram) 0 (257)) 256 (c % 32768 % 65536 % 65536), 1, 1000, 10⟩ : MState) := by
    simp [step1, c6Instr, c6Init, stepInstr, evalComp, applyDest, n16, jumpTaken, upd]

  have h10 : step1 (c6Instr c) (⟨upd (upd (c6Init.ram) 0 (257)) 256 (c % 32768 % 65536 % 65536), 1, 1000, 10⟩ : MState) =
      (⟨upd (upd (c6Init.ram) 0 (257)) 256 (c % 32768 % 65536 % 65536), 13, 1000, 11⟩ : MState) := by
    simp [step1, c6Instr, c6Init, stepInstr, evalComp, applyDest, n16, jumpTaken, upd]

  have h11 : step1 (c6Instr c) (⟨upd (upd (c6Init.ram) 0 (257)) 256 (c % 32768 % 65536 % 65536), 13, 1000, 11⟩ : MState) =
      (⟨upd (upd (upd (c6Init.ram) 0 (257)) 256 (c % 32768 % 65536 % 65536)) 13 (1000), 13, 1000, 12⟩ : MState) := by
    simp [step1, c6Instr, c6Init, stepInstr, evalComp, applyDest, n16, jumpTaken, upd]

  have h12 : step1 (c6Instr c) (⟨upd (upd (upd (c6Init.ram) 0 (257)) 256 (c % 32768 % 65536 % 65536)) 13 (1000), 13, 1000, 12⟩ : MState) =
      (⟨upd (upd (upd (c6Init.ram) 0 (257)) 256 (c % 32768 % 65536 % 65536)) 13 (1000), 0, 1000, 13⟩ : MState) := by
    simp [step1, c6Instr, c6Init, stepInstr, evalComp, applyDest, n16, jumpTaken, upd]

  have h13 : step1 (c6Instr c) (⟨upd (upd (upd (c6Init.ram) 0 (257)) 256 (c % 32768 % 65536 % 65536)) 13 (1000), 0, 1000, 13⟩ : MState) =
      (⟨upd (upd (upd (upd (c6Init.ram) 0 (257)) 256 (c % 32768 % 65536 % 65536)) 13 (1000)) 0 (256), 0, 1000, 14⟩ : MState) := by
    simp [step1, c6Instr, c6Init, stepInstr, evalComp, applyDest, n16, jumpTaken, upd]

  have h14 : step1 (c6Instr c) (⟨upd (upd (upd (upd (c6Init.ram) 0 (257)) 256 (c % 32768 % 65536 % 65536)) 13 (1000)) 0 (256), 0, 1000, 14⟩ : MState) =
      (⟨upd (upd (upd (upd (c6Init.ram) 0 (257)) 256 (c % 32768 % 65536 % 65536)) 13 (1000)) 0 (256), 256, 1000, 15⟩ : MState) := by
    simp [step1, c6Instr, c6Init, stepInstr, evalComp, applyDest, n16, jumpTaken, upd]

  have h15 : step1 (c6Instr c) (⟨upd (upd (upd (upd (c6Init.ram) 0 (257)) 256 (c % 32768 % 65536 % 65536)) 13 (1000)) 0 (256), 256, 1000, 15⟩ : MState) =
      (⟨upd (upd (upd (upd (c6Init.ram) 0 (257)) 256 (c % 32768 % 65536 % 65536)) 13 (1000)) 0 (256), 256, c % 32768 % 65536 % 65536 % 65536, 16⟩ : MState) := by
    simp [step1, c6Instr, c6Init, stepInstr, evalComp, applyDest, n16, jumpTaken, upd]

  have h16 : step1 (c6Instr c) (⟨upd (upd (upd (upd (c6Init.ram) 0 (257)) 256 (c % 32768 % 65536 % 65536)) 13 (1000)) 0 (256), 256, c % 32768 % 65536 % 65536 % 65536, 16⟩ : MState) =
      (⟨upd (upd (upd (upd (c6Init.ram) 0 (257)) 256 (c % 32768 % 65536 % 65536)) 13 (1000)) 0 (256), 13, c % 32768 % 65536 % 65536 % 65536, 17⟩ : MState) := by
    simp [step1, c6Instr, c6Init, stepInstr, evalComp, applyDest, n16, jumpTaken, upd]

  have h17 : step1 (c6Instr c) (⟨upd (upd (upd (upd (c6Init.ram) 0 (257)) 256 (c % 32768 % 65536 % 65536)) 13 (1000)) 0 (256), 13, c % 32768 % 65536 % 65536 % 65536, 17⟩ : MState) =
      (⟨upd (upd (upd (upd (c6Init.ram) 0 (257)) 256 (c % 32768 % 65536 % 65536)) 13 (1000)) 0 (256), 1000, c % 32768 % 65536 % 65536 % 65536, 18⟩ : MState) := by
    simp [step1, c6Instr, c6Init, stepInstr, evalComp, applyDest, n16, jumpTaken, upd]

  have h18 : step1 (c6Instr c) (⟨upd (upd (upd (upd (c6Init.ram) 0 (257)) 256 (c % 32768 % 65536 % 65536)) 13 (1000)) 0 (256), 1000, c % 32768 % 65536 % 65536 % 65536, 18⟩ : MState) =
      (⟨upd (upd (upd (upd (upd (c6Init.ram) 0 (257)) 256 (c % 32768 % 65536 % 65536)) 13 (1000)) 0 (256)) 1000 (c % 32768 % 65536 % 65536 % 65536 % 65536), 1000, c % 32768 % 65536 % 65536 % 65536, 19⟩ : MState) := by
    simp [step1, c6Instr, c6Init, stepInstr, evalComp, applyDest, n16, jumpTaken, upd]

  -- fuel left 1, final state (⟨upd (upd (upd (upd (upd (c6Init.ram) 0 (257)) 256 (c % 32768 % 65536 % 65536)) 13 (1000)) 0 (256)) 1000 (c % 32768 % 65536 % 65536 % 65536 % 65536), 1000, c % 32768 % 65536 % 65536 % 65536, 19⟩ : MState)
  have E : run (c6Instr c) 20 c6Init = (⟨upd (upd (upd (upd (upd (c6Init.ram) 0 (257)) 256 (c % 32768 % 65536 % 65536)) 13 (1000)) 0 (256)) 1000 (c % 32768 % 65536 % 65536 % 65536 % 65536), 1000, c % 32768 % 65536 % 65536 % 65536, 19⟩ : MState) :=
    (((((((((((((((((((((runStep (c6Instr c) 19 c6Init).trans (congrArg (run (c6Instr c) 19) (h0))).trans ((runStep (c6Instr c) 18 (⟨c6Init.ram, c % 32768, 0, 1⟩ : MState)).trans (congrArg (run (c6Instr c) 18) (h1)))).trans ((runStep (c6Instr c) 17 (⟨c6Init.ram, c % 32768, c % 32768 % 65536, 2⟩ : MState)).trans (congrArg (run (c6Instr c) 17) (h2)))).trans ((runStep (c6Instr c) 16 (⟨c6Init.ram, 0, c % 32768 % 65536, 3⟩ : MState)).trans (congrArg (run (c6Instr c) 16) (h3)))).trans ((runStep (c6Instr c) 15 (⟨upd (c6Init.ram) 0 (257), 0, c % 32768 % 65536, 4⟩ : MState)).trans (congrArg (run (c6Instr c) 15) (h4)))).trans ((runStep (c6Instr c) 14 (⟨upd (c6Init.ram) 0 (257), 256, c % 32768 % 65536, 5⟩ : MState)).trans (congrArg (run (c6Instr c) 14) (h5)))).trans ((runStep (c6Instr c) 13 (⟨upd (upd (c6Init.ram) 0 (257)) 256 (c % 32768 % 65536 % 65536), 256, c % 32768 % 65536, 6⟩ : MState)).trans (congrArg (run (c6Instr c) 13) (h6)))).trans ((runStep (c6Instr c) 12 (⟨upd (upd (c6Init.ram) 0 (257)) 256 (c % 32768 % 65536 % 65536), 0, c % 32768 % 65536, 7⟩ : MState)).trans (congrArg (run (c6Instr c) 12) (h7)))).trans ((runStep (c6Instr c) 11 (⟨upd (upd (c6Init.ram) 0 (257)) 256 (c % 32768 % 65536 % 65536), 0, 0, 8⟩ : MState)).trans (congrArg (run (c6Instr c) 11) (h8)))).trans ((runStep (c6Instr c) 10 (⟨upd (upd (c6Init.ram) 0 (257)) 256 (c % 32768 % 65536 % 65536), 1, 0, 9⟩ : MState)).trans (congrArg (run (c6Instr c) 10) (h9)))).trans ((runStep (c6Instr c) 9 (⟨upd (upd (c6Init.ram) 0 (257)) 256 (c % 32768 % 65536 % 65536), 1, 1000, 10⟩ : MState)).trans (congrArg (run (c6Instr c) 9) (h10)))).trans ((runStep (c6Instr c) 8 (⟨upd (upd (c6Init.ram) 0 (257)) 256 (c % 32768 % 65536 % 65536), 13, 1000, 11⟩ : MState)).trans (congrArg (run (c6Instr c) 8) (h11)))).trans ((runStep (c6Instr c) 7 (⟨upd (upd (upd (c6Init.ram) 0 (257)) 256 (c % 32768 % 65536 % 65536)) 13 (1000), 13, 1000, 12⟩ : MState)).trans (congrArg (run (c6Instr c) 7) (h12)))).trans ((runStep (c6Instr c) 6 (⟨upd (upd (upd (c6Init.ram) 0 (257)) 256 (c % 32768 % 65536 % 65536)) 13 (1000), 0, 1000, 13⟩ : MState)).trans (congrArg (run (c6Instr c) 6) (h13)))).trans ((runStep (c6Instr c) 5 (⟨upd (upd (upd (upd (c6Init.ram) 0 (257)) 256 (c % 32768 % 65536 % 65536)) 13 (1000)) 0 (256), 0, 1000, 14⟩ : MState)).trans (congrArg (run (c6Instr c) 5) (h14)))).trans ((runStep (c6Instr c) 4 (⟨upd (upd (upd (upd (c6Init.ram) 0 (257)) 256 (c % 32768 % 65536 % 65536)) 13 (1000)) 0 (256), 256, 1000, 15⟩ : MState)).trans (congrArg (run (c6Instr c) 4) (h15)))).trans ((runStep (c6Instr c) 3 (⟨upd (upd (upd (upd (c6Init.ram) 0 (257)) 256 (c % 32768 % 65536 % 65536)) 13 (1000)) 0 (256), 256, c % 32768 % 65536 % 65536 % 65536, 16⟩ : MState)).trans (congrArg (run (c6Instr c) 3) (h16)))).trans ((runStep (c6Instr c) 2 (⟨upd (upd (upd (upd (c6Init.ram) 0 (257)) 256 (c % 32768 % 65536 % 65536)) 13 (1000)) 0 (256), 13, c % 32768 % 65536 % 65536 % 65536, 17⟩ : MState)).trans (congrArg (run (c6Instr c) 2) (h17)))).trans ((runStep (c6Instr c) 1 (⟨upd (upd (upd (upd (c6Init.ram) 0 (257)) 256 (c % 32768 % 65536 % 65536)) 13 (1000)) 0 (256), 1000, c % 32768 % 65536 % 65536 % 65536, 18⟩ : MState)).trans (congrArg (run (c6Instr c) 1) (h18)))).trans (run_none (c6Instr c) 1 (⟨upd (upd (upd (upd (upd (c6Init.ram) 0 (257)) 256 (c % 32768 % 65536 % 65536)) 13 (1000)) 0 (256)) 1000 (c % 32768 % 65536 % 65536 % 65536 % 65536), 1000, c % 32768 % 65536 % 65536 % 65536, 19⟩ : MState) rfl))
  refine ⟨?_, ?_, ?_⟩
  · have hb : runWriter (mkCodeWriter "Foo.asm") [.push "constant" c, .pop "local" 0] =
        some (("@" ++ toString c ++ "\nD=A\n" ++ pushCmds) ++
          ("@0\nD=A\n@LCL\nD=M+D\n@R13\nM=D\n@SP\nM=M-1\nA=M\nD=M\n@R13\nA=M\nM=D\n" ++ ""),
          mkCodeWriter "Foo.asm") := rfl
    have hr : renderProg (pushPopProgA c) =
        "@" ++ toString c ++ "\n" ++
          "D=A\n@SP\nM=M+1\nA=M-1\nM=D\n@0\nD=A\n@LCL\nD=M+D\n@R13\nM=D\n@SP\nM=M-1\nA=M\nD=M\n@R13\nA=M\nM=D\n" := rfl
    rw [hb, hr]
    simp only [String.append_assoc]
    rfl
  · rw [hasm, E]
    show c % 32768 % 65536 % 65536 % 65536 % 65536 = c
    omega
  · rw [hasm, E]
    rfl

/-- Witness for C6 (amended) at c = 7. -/
theorem push_pop_local_roundtrip_witness :
    runWriter (mkCodeWriter "Foo.asm") [.push "constant" 7, .pop "local" 0] =
      some (renderProg (pushPopProgA 7), mkCodeWriter "Foo.asm") ∧
    (run (assemble (pushPopProgA 7)) 20 c6Init).ram 1000 = 7 ∧
    (run (assemble (pushPopProgA 7)) 20 c6Init).ram 0 = 256 :=
  push_pop_local_roundtrip 7 (by norm_num)

/-- Claim C6 (counterexample): at c = 2 ^ 15 the constant no longer fits
the 15-bit payload of an address instruction, and the executed translation
of push constant 32768; pop local 0 leaves 0, not 32768, in the local
slot. -/
theorem push_pop_local_overflow :
    runWriter (mkCodeWriter "Foo.asm") [.push "constant" 32768, .pop "local" 0] =
      some (renderProg (pushPopProgA 32768), mkCodeWriter "Foo.asm") ∧
    (run (assemble (pushPopProgA 32768)) 20 c6Init).ram 1000 = 0 ∧
    ((run (assemble (pushPopProgA 32768)) 20 c6Init).ram 1000 == (32768 : Nat)) = false :=
  ⟨rfl, rfl, rfl⟩
/- Helper: reading a memory update at the written cell. -/
theorem upd_self (f : Nat → Nat) (k v : Nat) : upd f k v k = v := by
  simp [upd]

/- Helper: reading a memory update elsewhere. -/
theorem upd_other (f : Nat → Nat) (k v i : Nat) (h : ¬ i = k) : upd f k v i = f i := by
  simp [upd, h]

/- Symbolic execution of the comparison program, step 0. -/
theorem cmpStep0 (x y : Nat) (j : Jump) :
    step1 (cmpInstr j x y) cmpInit =
      (⟨cmpInit.ram, x % 32768, 0, 1⟩ : MState) := by
  simp only [step1, cmpInstr, stepInstr, evalComp, applyDest, jumpTaken]
  norm_num [MState.mk.injEq, n16, upd_self, upd_other, cmpInit]

/- Symbolic execution of the comparison program, step 1. -/
theorem cmpStep1 (x y : Nat) (j : Jump) :
    step1 (cmpInstr j x y) (⟨cmpInit.ram, x % 32768, 0, 1⟩ : MState) =
      (⟨cmpInit.ram, x % 32768, x % 32768 % 65536, 2⟩ : MState) := by
  simp only [step1, cmpInstr, stepInstr, evalComp, applyDest, jumpTaken]
  norm_num [MState.mk.injEq, n16, upd_self, upd_other, cmpInit]

/- Symbolic execution of the comparison program, step 2. -/
theorem cmpStep2 (x y : Nat) (j : Jump) :
    step1 (cmpInstr j x y) (⟨cmpInit.ram, x % 32768, x % 32768 % 65536, 2⟩ : MState) =
      (⟨cmpInit.ram, 0, x % 32768 % 65536, 3⟩ : MState) := by
  simp only [step1, cmpInstr, stepInstr, evalComp, applyDest, jumpTaken]
  norm_num [MState.mk.injEq, n16, upd_self, upd_other, cmpInit]

/- Symbolic execution of the comparison program, step 3. -/
theorem cmpStep3 (x y : Nat) (j : Jump) :
    step1 (cmpInstr j x y) (⟨cmpInit.ram, 0, x % 32768 % 65536, 3⟩ : MState) =
      (⟨upd (cmpInit.ram) 0 (257), 0, x % 32768 % 65536, 4⟩ : MState) := by
  simp only [step1, cmpInstr, stepInstr, evalComp, applyDest, jumpTaken]
  norm_num [MState.mk.injEq, n16, upd_self, upd_other, cmpInit]

/- Symbolic execution of the comparison program, step 4. -/
theorem cmpStep4 (x y : Nat) (j : Jump) :
    step1 (cmpInstr j x y) (⟨upd (cmpInit.ram) 0 (257), 0, x % 32768 % 65536, 4⟩ : MState) =
      (⟨upd (cmpInit.ram) 0 (257), 256, x % 32768 % 65536, 5⟩ : MState) := by
  simp only [step1, cmpInstr, stepInstr, evalComp, applyDest, jumpTaken]
  norm_num [MState.mk.injEq, n16, upd_self, upd_other, cmpInit]

/- Symbolic execution of the comparison program, step 5. -/
theorem cmpStep5 (x y : Nat) (j : Jump) :
    step1 (cmpInstr j x y) (⟨upd (cmpInit.ram) 0 (257), 256, x % 32768 % 65536, 5⟩ : MState) =
      (⟨upd (upd (cmpInit.ram) 0 (257)) 256 (x % 32768 % 65536 % 65536), 256, x % 32768 % 65536, 6⟩ : MState) := by
  simp only [step1, cmpInstr, stepInstr, evalComp, applyDest, jumpTaken]
  norm_num [MState.mk.injEq, n16, upd_self, upd_other, cmpInit]

/- Symbolic execution of the comparison program, step 6. -/
theorem cmpStep6 (x y : Nat) (j : Jump) :
    step1 (cmpInstr j x y) (⟨upd (upd (cmpInit.ram) 0 (257)) 256 (x % 32768 % 65536 % 65536), 256, x % 32768 % 65536, 6⟩ : MState) =
      (⟨upd (upd (cmpInit.ram) 0 (257)) 256 (x % 32768 % 65536 % 65536), y % 32768, x % 32768 % 65536, 7⟩ : MState) := by
  simp only [step1, cmpInstr, stepInstr, evalComp, applyDest, jumpTaken]
  norm_num [MState.mk.injEq, n16, upd_self, upd_other, cmpInit]

/- Symbolic execution of the comparison program, step 7. -/
theorem cmpStep7 (x y : Nat) (j : Jump) :
    step1 (cmpInstr j x y) (⟨upd (upd (cmpInit.ram) 0 (257)) 256 (x % 32768 % 65536 % 65536), y % 32768, x % 32768 % 65536, 7⟩ : MState) =
      (⟨upd (upd (cmpInit.ram) 0 (257)) 256 (x % 32768 % 65536 % 65536), y % 32768, y % 32768 % 65536, 8⟩ : MState) := by
  simp only [step1, cmpInstr, stepInstr, evalComp, applyDest, jumpTaken]
  norm_num [MState.mk.injEq, n16, upd_self, upd_other, cmpInit]

/- Symbolic execution of the comparison program, step 8. -/
theorem cmpStep8 (x y : Nat) (j : Jump) :
    step1 (cmpInstr j x y) (⟨upd (upd (cmpInit.ram) 0 (257)) 256 (x % 32768 % 65536 % 65536), y % 32768, y % 32768 % 65536, 8⟩ : MState) =
      (⟨upd (upd (cmpInit.ram) 0 (257)) 256 (x % 32768 % 65536 % 65536), 0, y % 32768 % 65536, 9⟩ : MState) := by
  simp only [step1, cmpInstr, stepInstr, evalComp, applyDest, jumpTaken]
  norm_num [MState.mk.injEq, n16, upd_self, upd_other, cmpInit]

/- Symbolic execution of the comparison program, step 9. -/
theorem cmpStep9 (x y : Nat) (j : Jump) :
    step1 (cmpInstr j x y) (⟨upd (upd (cmpInit.ram) 0 (257)) 256 (x % 32768 % 65536 % 65536), 0, y % 32768 % 65536, 9⟩ : MState) =
      (⟨upd (upd (upd (cmpInit.ram) 0 (257)) 256 (x % 32768 % 65536 % 65536)) 0 (258), 0, y % 32768 % 65536, 10⟩ : MState) := by
  simp only [step1, cmpInstr, stepInstr, evalComp, applyDest, jumpTaken]
  norm_num [MState.mk.injEq, n16, upd_self, upd_other, cmpInit]

/- Symbolic execution of the comparison program, step 10. -/
theorem cmpStep10 (x y : Nat) (j : Jump) :
    step1 (cmpInstr j x y) (⟨upd (upd (upd (cmpInit.ram) 0 (257)) 256 (x % 32768 % 65536 % 65536)) 0 (258), 0, y % 32768 % 65536, 10⟩ : MState) =
      (⟨upd (upd (upd (cmpInit.ram) 0 (257)) 256 (x % 32768 % 65536 % 65536)) 0 (258), 257, y % 32768 % 65536, 11⟩ : MState) := by
  simp only [step1, cmpInstr, stepInstr, evalComp, applyDest, jumpTaken]
  norm_num [MState.mk.injEq, n16, upd_self, upd_other, cmpInit]

/- Symbolic execution of the comparison program, step 11. -/
theorem cmpStep11 (x y : Nat) (j : Jump) :
    step1 (cmpInstr j x y) (⟨upd (upd (upd (cmpInit.ram) 0 (257)) 256 (x % 32768 % 65536 % 65536)) 0 (258), 257, y % 32768 % 65536, 11⟩ : MState) =
      (⟨upd (upd (upd (upd (cmpInit.ram) 0 (257)) 256 (x % 32768 % 65536 % 65536)) 0 (258)) 257 (y % 32768 % 65536 % 65536), 257, y % 32768 % 65536, 12⟩ : MState) := by
  simp only [step1, cmpInstr, stepInstr, evalComp, applyDest, jumpTaken]
  norm_num [MState.mk.injEq, n16, upd_self, upd_other, cmpInit]

/- Symbolic execution of the comparison program, step 12. -/
theorem cmpStep12 (x y : Nat) (j : Jump) :
    step1 (cmpInstr j x y) (⟨upd (upd (upd (upd (cmpInit.ram) 0 (257)) 256 (x % 32768 % 65536 % 65536)) 0 (258)) 257 (y % 32768 % 65536 % 65536), 257, y % 32768 % 65536, 12⟩ : MState) =
      (⟨upd (upd (upd (upd (cmpInit.ram) 0 (257)) 256 (x % 32768 % 65536 % 65536)) 0 (258)) 257 (y % 32768 % 65536 % 65536), 0, y % 32768 % 65536, 13⟩ : MState) := by
  simp only [step1, cmpInstr, stepInstr, evalComp, applyDest, jumpTaken]
  norm_num [MState.mk.injEq, n16, upd_self, upd_other, cmpInit]

/- Symbolic execution of the comparison program, step 13. -/
theorem cmpStep13 (x y : Nat) (j : Jump) :
    step1 (cmpInstr j x y) (⟨upd (upd (upd (upd (cmpInit.ram) 0 (257)) 256 (x % 32768 % 65536 % 65536)) 0 (258)) 257 (y % 32768 % 65536 % 65536), 0, y % 32768 % 65536, 13⟩ : MState) =
      (⟨upd (upd (upd (upd (upd (cmpInit.ram) 0 (257)) 256 (x % 32768 % 65536 % 65536)) 0 (258)) 257 (y % 32768 % 65536 % 65536)) 0 (257), 0, y % 32768 % 65536, 14⟩ : MState) := by
  simp only [step1, cmpInstr, stepInstr, evalComp, applyDest, jumpTaken]
  norm_num [MState.mk.injEq, n16, upd_self, upd_other, cmpInit]

/- Symbolic execution of the comparison program, step 14. -/
theorem cmpStep14 (x y : Nat) (j : Jump) :
    step1 (cmpInstr j x y) (⟨upd (upd (upd (upd (upd (cmpInit.ram) 0 (257)) 256 (x % 32768 % 65536 % 65536)) 0 (258)) 257 (y % 32768 % 65536 % 65536)) 0 (257), 0, y % 32768 % 65536, 14⟩ : MState) =
      (⟨upd (upd (upd (upd (upd (cmpInit.ram) 0 (257)) 256 (x % 32768 % 65536 % 65536)) 0 (258)) 257 (y % 32768 % 65536 % 65536)) 0 (257), 257, y % 32768 % 65536, 15⟩ : MState) := by
  simp only [step1, cmpInstr, stepInstr, evalComp, applyDest, jumpTaken]
  norm_num [MState.mk.injEq, n16, upd_self, upd_other, cmpInit]

/- Symbolic execution of the comparison program, step 15. -/
theorem cmpStep15 (x y : Nat) (j : Jump) :
    step1 (cmpInstr j x y) (⟨upd (upd (upd (upd (upd (cmpInit.ram) 0 (257)) 256 (x % 32768 % 65536 % 65536)) 0 (258)) 257 (y % 32768 % 65536 % 65536)) 0 (257), 257, y % 32768 % 65536, 15⟩ : MState) =
      (⟨upd (upd (upd (upd (upd (cmpInit.ram) 0 (257)) 256 (x % 32768 % 65536 % 65536)) 0 (258)) 257 (y % 32768 % 65536 % 65536)) 0 (257), 257, y % 32768 % 65536 % 65536 % 65536, 16⟩ : MState) := by
  simp only [step1, cmpInstr, stepInstr, evalComp, applyDest, jumpTaken]
  norm_num [MState.mk.injEq, n16, upd_self, upd_other, cmpInit]

/- Symbolic execution of the comparison program, step 16. -/
theorem cmpStep16 (x y : Nat) (j : Jump) :
    step1 (cmpInstr j x y) (⟨upd (upd (upd (upd (upd (cmpInit.ram) 0 (257)) 256 (x % 32768 % 65536 % 65536)) 0 (258)) 257 (y % 32768 % 65536 % 65536)) 0 (257), 257, y % 32768 % 65536 % 65536 % 65536, 16⟩ : MState) =
      (⟨upd (upd (upd (upd (upd (cmpInit.ram) 0 (257)) 256 (x % 32768 % 65536 % 65536)) 0 (258)) 257 (y % 32768 % 65536 % 65536)) 0 (257), 256, y % 32768 % 65536 % 65536 % 65536, 17⟩ : MState) := by
  simp only [step1, cmpInstr, stepInstr, evalComp, applyDest, jumpTaken]
  norm_num [MState.mk.injEq, n16, upd_self, upd_other, cmpInit]

/- Symbolic execution of the comparison program, step 17. -/
theorem cmpStep17 (x y : Nat) (j : Jump) :
    step1 (cmpInstr j x y) (⟨upd (upd (upd (upd (upd (cmpInit.ram) 0 (257)) 256 (x % 32768 % 65536 % 65536)) 0 (258)) 257 (y % 32768 % 65536 % 65536)) 0 (257), 256, y % 32768 % 65536 % 65536 % 65536, 17⟩ : MState) =
      (⟨upd (upd (upd (upd (upd (cmpInit.ram) 0 (257)) 256 (x % 32768 % 65536 % 65536)) 0 (258)) 257 (y % 32768 % 65536 % 65536)) 0 (257), 256, wsub (y % 32768 % 65536 % 65536 % 65536) (x % 32768 % 65536 % 65536), 18⟩ : MState) := by
  simp only [step1, cmpInstr, stepInstr, evalComp, applyDest, jumpTaken]
  norm_num [MState.mk.injEq, n16, upd_self, upd_other, cmpInit]

/- Symbolic execution of the comparison program, step 18. -/
theorem cmpStep18 (x y : Nat) (j : Jump) :
    step1 (cmpInstr j x y) (⟨upd (upd (upd (upd (upd (cmpInit.ram) 0 (257)) 256 (x % 32768 % 65536 % 65536)) 0 (258)) 257 (y % 32768 % 65536 % 65536)) 0 (257), 256, wsub (y % 32768 % 65536 % 65536 % 65536) (x % 32768 % 65536 % 65536), 18⟩ : MState) =
      (⟨upd (upd (upd (upd (upd (cmpInit.ram) 0 (257)) 256 (x % 32768 % 65536 % 65536)) 0 (258)) 257 (y % 32768 % 65536 % 65536)) 0 (257), 25, wsub (y % 32768 % 65536 % 65536 % 65536) (x % 32768 % 65536 % 65536), 19⟩ : MState) := by
  simp only [step1, cmpInstr, stepInstr, evalComp, applyDest, jumpTaken]
  norm_num [MState.mk.injEq, n16, upd_self, upd_other, cmpInit]

/- True-branch tail of the comparison program, step 0. -/
theorem cmpStepT0 (x y : Nat) (j : Jump) :
    step1 (cmpInstr j x y) (⟨upd (upd (upd (upd (upd (cmpInit.ram) 0 (257)) 256 (x % 32768 % 65536 % 65536)) 0 (258)) 257 (y % 32768 % 65536 % 65536)) 0 (257), 25, wsub (y % 32768 % 65536 % 65536 % 65536) (x % 32768 % 65536 % 65536), 25⟩ : MState) =
      (⟨upd (upd (upd (upd (upd (cmpInit.ram) 0 (257)) 256 (x % 32768 % 65536 % 65536)) 0 (258)) 257 (y % 32768 % 65536 % 65536)) 0 (257), 0, wsub (y % 32768 % 65536 % 65536 % 65536) (x % 32768 % 65536 % 65536), 26⟩ : MState) := by
  simp only [step1, cmpInstr, stepInstr, evalComp, applyDest, jumpTaken]
  norm_num [MState.mk.injEq, n16, upd_self, upd_other, cmpInit]

/- True-branch tail of the comparison program, step 1. -/
theorem cmpStepT1 (x y : Nat) (j : Jump) :
    step1 (cmpInstr j x y) (⟨upd (upd (upd (upd (upd (cmpInit.ram) 0 (257)) 256 (x % 32768 % 65536 % 65536)) 0 (258)) 257 (y % 32768 % 65536 % 65536)) 0 (257), 0, wsub (y % 32768 % 65536 % 65536 % 65536) (x % 32768 % 65536 % 65536), 26⟩ : MState) =
      (⟨upd (upd (upd (upd (upd (cmpInit.ram) 0 (257)) 256 (x % 32768 % 65536 % 65536)) 0 (258)) 257 (y % 32768 % 65536 % 65536)) 0 (257), 256, wsub (y % 32768 % 65536 % 65536 % 65536) (x % 32768 % 65536 % 65536), 27⟩ : MState) := by
  simp only [step1, cmpInstr, stepInstr, evalComp, applyDest, jumpTaken]
  norm_num [MState.mk.injEq, n16, upd_self, upd_other, cmpInit]

/- True-branch tail of the comparison program, step 2. -/
theorem cmpStepT2 (x y : Nat) (j : Jump) :
    step1 (cmpInstr j x y) (⟨upd (upd (upd (upd (upd (cmpInit.ram) 0 (257)) 256 (x % 32768 % 65536 % 65536)) 0 (258)) 257 (y % 32768 % 65536 % 65536)) 0 (257), 256, wsub (y % 32768 % 65536 % 65536 % 65536) (x % 32768 % 65536 % 65536), 27⟩ : MState) =
      (⟨upd (upd (upd (upd (upd (upd (cmpInit.ram) 0 (257)) 256 (x % 32768 % 65536 % 65536)) 0 (258)) 257 (y % 32768 % 65536 % 65536)) 0 (257)) 256 (65535), 256, wsub (y % 32768 % 65536 % 65536 % 65536) (x % 32768 % 65536 % 65536), 28⟩ : MState) := by
  simp only [step1, cmpInstr, stepInstr, evalComp, applyDest, jumpTaken]
  norm_num [MState.mk.injEq, n16, upd_self, upd_other, cmpInit]

/- False-branch tail of the comparison program, step 0. -/
theorem cmpStepF0 (x y : Nat) (j : Jump) :
    step1 (cmpInstr j x y) (⟨upd (upd (upd (upd (upd (cmpInit.ram) 0 (257)) 256 (x % 32768 % 65536 % 65536)) 0 (258)) 257 (y % 32768 % 65536 % 65536)) 0 (257), 25, wsub (y % 32768 % 65536 % 65536 % 65536) (x % 32768 % 65536 % 65536), 20⟩ : MState) =
      (⟨upd (upd (upd (upd (upd (cmpInit.ram) 0 (257)) 256 (x % 32768 % 65536 % 65536)) 0 (258)) 257 (y % 32768 % 65536 % 65536)) 0 (257), 0, wsub (y % 32768 % 65536 % 65536 % 65536) (x % 32768 % 65536 % 65536), 21⟩ : MState) := by
  simp only [step1, cmpInstr, stepInstr, evalComp, applyDest, jumpTaken]
  norm_num [MState.mk.injEq, n16, upd_self, upd_other, cmpInit]

/- False-branch tail of the comparison program, step 1. -/
theorem cmpStepF1 (x y : Nat) (j : Jump) :
    step1 (cmpInstr j x y) (⟨upd (upd (upd (upd (upd (cmpInit.ram) 0 (257)) 256 (x % 32768 % 65536 % 65536)) 0 (258)) 257 (y % 32768 % 65536 % 65536)) 0 (257), 0, wsub (y % 32768 % 65536 % 65536 % 65536) (x % 32768 % 65536 % 65536), 21⟩ : MState) =
      (⟨upd (upd (upd (upd (upd (cmpInit.ram) 0 (257)) 256 (x % 32768 % 65536 % 65536)) 0 (258)) 257 (y % 32768 % 65536 % 65536)) 0 (257), 256, wsub (y % 32768 % 65536 % 65536 % 65536) (x % 32768 % 65536 % 65536), 22⟩ : MState) := by
  simp only [step1, cmpInstr, stepInstr, evalComp, applyDest, jumpTaken]
  norm_num [MState.mk.injEq, n16, upd_self, upd_other, cmpInit]

/- False-branch tail of the comparison program, step 2. -/
theorem cmpStepF2 (x y : Nat) (j : Jump) :
    step1 (cmpInstr j x y) (⟨upd (upd (upd (upd (upd (cmpInit.ram) 0 (257)) 256 (x % 32768 % 65536 % 65536)) 0 (258)) 257 (y % 32768 % 65536 % 65536)) 0 (257), 256, wsub (y % 32768 % 65536 % 65536 % 65536) (x % 32768 % 65536 % 65536), 22⟩ : MState) =
      (⟨upd (upd (upd (upd (upd (upd (cmpInit.ram) 0 (257)) 256 (x % 32768 % 65536 % 65536)) 0 (258)) 257 (y % 32768 % 65536 % 65536)) 0 (257)) 256 (0), 256, wsub (y % 32768 % 65536 % 65536 % 65536) (x % 32768 % 65536 % 65536), 23⟩ : MState) := by
  simp only [step1, cmpInstr, stepInstr, evalComp, applyDest, jumpTaken]
  norm_num [MState.mk.injEq, n16, upd_self, upd_other, cmpInit]

/- False-branch tail of the comparison program, step 3. -/
theorem cmpStepF3 (x y : Nat) (j : Jump) :
    step1 (cmpInstr j x y) (⟨upd (upd (upd (upd (upd (upd (cmpInit.ram) 0 (257)) 256 (x % 32768 % 65536 % 65536)) 0 (258)) 257 (y % 32768 % 65536 % 65536)) 0 (257)) 256 (0), 256, wsub (y % 32768 % 65536 % 65536 % 65536) (x % 32768 % 65536 % 65536), 23⟩ : MState) =
      (⟨upd (upd (upd (upd (upd (upd (cmpInit.ram) 0 (257)) 256 (x % 32768 % 65536 % 65536)) 0 (258)) 257 (y % 32768 % 65536 % 65536)) 0 (257)) 256 (0), 28, wsub (y % 32768 % 65536 % 65536 % 65536) (x % 32768 % 65536 % 65536), 24⟩ : MState) := by
  simp only [step1, cmpInstr, stepInstr, evalComp, applyDest, jumpTaken]
  norm_num [MState.mk.injEq, n16, upd_self, upd_other, cmpInit]

/- False-branch tail of the comparison program, step 4. -/
theorem cmpStepF4 (x y : Nat) (j : Jump) :
    step1 (cmpInstr j x y) (⟨upd (upd (upd (upd (upd (upd (cmpInit.ram) 0 (257)) 256 (x % 32768 % 65536 % 65536)) 0 (258)) 257 (y % 32768 % 65536 % 65536)) 0 (257)) 256 (0), 28, wsub (y % 32768 % 65536 % 65536 % 65536) (x % 32768 % 65536 % 65536), 24⟩ : MState) =
      (⟨upd (upd (upd (upd (upd (upd (cmpInit.ram) 0 (257)) 256 (x % 32768 % 65536 % 65536)) 0 (258)) 257 (y % 32768 % 65536 % 65536)) 0 (257)) 256 (0), 28, wsub (y % 32768 % 65536 % 65536 % 65536) (x % 32768 % 65536 % 65536), 28⟩ : MState) := by
  simp only [step1, cmpInstr, stepInstr, evalComp, applyDest, jumpTaken]
  norm_num [MState.mk.injEq, n16, upd_self, upd_other, cmpInit]

/- The nineteen straight-line steps shared by both branches. -/
theorem cmpShared (x y : Nat) (j : Jump) :
    run (cmpInstr j x y) 30 cmpInit = run (cmpInstr j x y) 11 (⟨upd (upd (upd (upd (upd (cmpInit.ram) 0 (257)) 256 (x % 32768 % 65536 % 65536)) 0 (258)) 257 (y % 32768 % 65536 % 65536)) 0 (257), 25, wsub (y % 32768 % 65536 % 65536 % 65536) (x % 32768 % 65536 % 65536), 19⟩ : MState) :=
  ((((((((((((((((((((runStep (cmpInstr j x y) 29 cmpInit).trans (congrArg (run (cmpInstr j x y) 29) (cmpStep0 x y j))).trans
    ((runStep (cmpInstr j x y) 28 (⟨cmpInit.ram, x % 32768, 0, 1⟩ : MState)).trans (congrArg (run (cmpInstr j x y) 28) (cmpStep1 x y j)))).trans
    ((runStep (cmpInstr j x y) 27 (⟨cmpInit.ram, x % 32768, x % 32768 % 65536, 2⟩ : MState)).trans (congrArg (run (cmpInstr j x y) 27) (cmpStep2 x y j)))).trans
    ((runStep (cmpInstr j x y) 26 (⟨cmpInit.ram, 0, x % 32768 % 65536, 3⟩ : MState)).trans (congrArg (run (cmpInstr j x y) 26) (cmpStep3 x y j)))).trans
    ((runStep (cmpInstr j x y) 25 (⟨upd (cmpInit.ram) 0 (257), 0, x % 32768 % 65536, 4⟩ : MState)).trans (congrArg (run (cmpInstr j x y) 25) (cmpStep4 x y j)))).trans
    ((runStep (cmpInstr j x y) 24 (⟨upd (cmpInit.ram) 0 (257), 256, x % 32768 % 65536, 5⟩ : MState)).trans (congrArg (run (cmpInstr j x y) 24) (cmpStep5 x y j)))).trans
    ((runStep (cmpInstr j x y) 23 (⟨upd (upd (cmpInit.ram) 0 (257)) 256 (x % 32768 % 65536 % 65536), 256, x % 32768 % 65536, 6⟩ : MState)).trans (congrArg (run (cmpInstr j x y) 23) (cmpStep6 x y j)))).trans
    ((runStep (cmpInstr j x y) 22 (⟨upd (upd (cmpInit.ram) 0 (257)) 256 (x % 32768 % 65536 % 65536), y % 32768, x % 32768 % 65536, 7⟩ : MState)).trans (congrArg (run (cmpInstr j x y) 22) (cmpStep7 x y j)))).trans
    ((runStep (cmpInstr j x y) 21 (⟨upd (upd (cmpInit.ram) 0 (257)) 256 (x % 32768 % 65536 % 65536), y % 32768, y % 32768 % 65536, 8⟩ : MState)).trans (congrArg (run (cmpInstr j x y) 21) (cmpStep8 x y j)))).trans
    ((runStep (cmpInstr j x y) 20 (⟨upd (upd (cmpInit.ram) 0 (257)) 256 (x % 32768 % 65536 % 65536), 0, y % 32768 % 65536, 9⟩ : MState)).trans (congrArg (run (cmpInstr j x y) 20) (cmpStep9 x y j)))).trans
    ((runStep (cmpInstr j x y) 19 (⟨upd (upd (upd (cmpInit.ram) 0 (257)) 256 (x % 32768 % 65536 % 65536)) 0 (258), 0, y % 32768 % 65536, 10⟩ : MState)).trans (congrArg (run (cmpInstr j x y) 19) (cmpStep10 x y j)))).trans
    ((runStep (cmpInstr j x y) 18 (⟨upd (upd (upd (cmpInit.ram) 0 (257)) 256 (x % 32768 % 65536 % 65536)) 0 (258), 257, y % 32768 % 65536, 11⟩ : MState)).trans (congrArg (run (cmpInstr j x y) 18) (cmpStep11 x y j)))).trans
    ((runStep (cmpInstr j x y) 17 (⟨upd (upd (upd (upd (cmpInit.ram) 0 (257)) 256 (x % 32768 % 65536 % 65536)) 0 (258)) 257 (y % 32768 % 65536 % 65536), 257, y % 32768 % 65536, 12⟩ : MState)).trans (congrArg (run (cmpInstr j x y) 17) (cmpStep12 x y j)))).trans
    ((runStep (cmpInstr j x y) 16 (⟨upd (upd (upd (upd (cmpInit.ram) 0 (257)) 256 (x % 32768 % 65536 % 65536)) 0 (258)) 257 (y % 32768 % 65536 % 65536), 0, y % 32768 % 65536, 13⟩ : MState)).trans (congrArg (run (cmpInstr j x y) 16) (cmpStep13 x y j)))).trans
    ((runStep (cmpInstr j x y) 15 (⟨upd (upd (upd (upd (upd (cmpInit.ram) 0 (257)) 256 (x % 32768 % 65536 % 65536)) 0 (258)) 257 (y % 32768 % 65536 % 65536)) 0 (257), 0, y % 32768 % 65536, 14⟩ : MState)).trans (congrArg (run (cmpInstr j x y) 15) (cmpStep14 x y j)))).trans
    ((runStep (cmpInstr j x y) 14 (⟨upd (upd (upd (upd (upd (cmpInit.ram) 0 (257)) 256 (x % 32768 % 65536 % 65536)) 0 (258)) 257 (y % 32768 % 65536 % 65536)) 0 (257), 257, y % 32768 % 65536, 15⟩ : MState)).trans (congrArg (run (cmpInstr j x y) 14) (cmpStep15 x y j)))).trans
    ((runStep (cmpInstr j x y) 13 (⟨upd (upd (upd (upd (upd (cmpInit.ram) 0 (257)) 256 (x % 32768 % 65536 % 65536)) 0 (258)) 257 (y % 32768 % 65536 % 65536)) 0 (257), 257, y % 32768 % 65536 % 65536 % 65536, 16⟩ : MState)).trans (congrArg (run (cmpInstr j x y) 13) (cmpStep16 x y j)))).trans
    ((runStep (cmpInstr j x y) 12 (⟨upd (upd (upd (upd (upd (cmpInit.ram) 0 (257)) 256 (x % 32768 % 65536 % 65536)) 0 (258)) 257 (y % 32768 % 65536 % 65536)) 0 (257), 256, y % 32768 % 65536 % 65536 % 65536, 17⟩ : MState)).trans (congrArg (run (cmpInstr j x y) 12) (cmpStep17 x y j)))).trans
    ((runStep (cmpInstr j x y) 11 (⟨upd (upd (upd (upd (upd (cmpInit.ram) 0 (257)) 256 (x % 32768 % 65536 % 65536)) 0 (258)) 257 (y % 32768 % 65536 % 65536)) 0 (257), 256, wsub (y % 32768 % 65536 % 65536 % 65536) (x % 32768 % 65536 % 65536), 18⟩ : MState)).trans (congrArg (run (cmpInstr j x y) 11) (cmpStep18 x y j))))

/- The taken-branch tail: three steps then the machine idles. -/
theorem cmpTrueTail (x y : Nat) (j : Jump) :
    run (cmpInstr j x y) 10 (⟨upd (upd (upd (upd (upd (cmpInit.ram) 0 (257)) 256 (x % 32768 % 65536 % 65536)) 0 (258)) 257 (y % 32768 % 65536 % 65536)) 0 (257), 25, wsub (y % 32768 % 65536 % 65536 % 65536) (x % 32768 % 65536 % 65536), 25⟩ : MState) = (⟨upd (upd (upd (upd (upd (upd (cmpInit.ram) 0 (257)) 256 (x % 32768 % 65536 % 65536)) 0 (258)) 257 (y % 32768 % 65536 % 65536)) 0 (257)) 256 (65535), 256, wsub (y % 32768 % 65536 % 65536 % 65536) (x % 32768 % 65536 % 65536), 28⟩ : MState) :=
  (((((runStep (cmpInstr j x y) 9 (⟨upd (upd (upd (upd (upd (cmpInit.ram) 0 (257)) 256 (x % 32768 % 65536 % 65536)) 0 (258)) 257 (y % 32768 % 65536 % 65536)) 0 (257), 25, wsub (y % 32768 % 65536 % 65536 % 65536) (x % 32768 % 65536 % 65536), 25⟩ : MState)).trans (congrArg (run (cmpInstr j x y) 9) (cmpStepT0 x y j))).trans
    ((runStep (cmpInstr j x y) 8 (⟨upd (upd (upd (upd (upd (cmpInit.ram) 0 (257)) 256 (x % 32768 % 65536 % 65536)) 0 (258)) 257 (y % 32768 % 65536 % 65536)) 0 (257), 0, wsub (y % 32768 % 65536 % 65536 % 65536) (x % 32768 % 65536 % 65536), 26⟩ : MState)).trans (congrArg (run (cmpInstr j x y) 8) (cmpStepT1 x y j)))).trans
    ((runStep (cmpInstr j x y) 7 (⟨upd (upd (upd (upd (upd (cmpInit.ram) 0 (257)) 256 (x % 32768 % 65536 % 65536)) 0 (258)) 257 (y % 32768 % 65536 % 65536)) 0 (257), 256, wsub (y % 32768 % 65536 % 65536 % 65536) (x % 32768 % 65536 % 65536), 27⟩ : MState)).trans (congrArg (run (cmpInstr j x y) 7) (cmpStepT2 x y j)))).trans
    (run_none (cmpInstr j x y) 7 (⟨upd (upd (upd (upd (upd (upd (cmpInit.ram) 0 (257)) 256 (x % 32768 % 65536 % 65536)) 0 (258)) 257 (y % 32768 % 65536 % 65536)) 0 (257)) 256 (65535), 256, wsub (y % 32768 % 65536 % 65536 % 65536) (x % 32768 % 65536 % 65536), 28⟩ : MState) rfl))

/- The fall-through tail: five steps then the machine idles. -/
theorem cmpFalseTail (x y : Nat) (j : Jump) :
    run (cmpInstr j x y) 10 (⟨upd (upd (upd (upd (upd (cmpInit.ram) 0 (257)) 256 (x % 32768 % 65536 % 65536)) 0 (258)) 257 (y % 32768 % 65536 % 65536)) 0 (257), 25, wsub (y % 32768 % 65536 % 65536 % 65536) (x % 32768 % 65536 % 65536), 20⟩ : MState) = (⟨upd (upd (upd (upd (upd (upd (cmpInit.ram) 0 (257)) 256 (x % 32768 % 65536 % 65536)) 0 (258)) 257 (y % 32768 % 65536 % 65536)) 0 (257)) 256 (0), 28, wsub (y % 32768 % 65536 % 65536 % 65536) (x % 32768 % 65536 % 65536), 28⟩ : MState) :=
  (((((((runStep (cmpInstr j x y) 9 (⟨upd (upd (upd (upd (upd (cmpInit.ram) 0 (257)) 256 (x % 32768 % 65536 % 65536)) 0 (258)) 257 (y % 32768 % 65536 % 65536)) 0 (257), 25, wsub (y % 32768 % 65536 % 65536 % 65536) (x % 32768 % 65536 % 65536), 20⟩ : MState)).trans (congrArg (run (cmpInstr j x y) 9) (cmpStepF0 x y j))).trans
    ((runStep (cmpInstr j x y) 8 (⟨upd (upd (upd (upd (upd (cmpInit.ram) 0 (257)) 256 (x % 32768 % 65536 % 65536)) 0 (258)) 257 (y % 32768 % 65536 % 65536)) 0 (257), 0, wsub (y % 32768 % 65536 % 65536 % 65536) (x % 32768 % 65536 % 65536), 21⟩ : MState)).trans (congrArg (run (cmpInstr j x y) 8) (cmpStepF1 x y j)))).trans
    ((runStep (cmpInstr j x y) 7 (⟨upd (upd (upd (upd (upd (cmpInit.ram) 0 (257)) 256 (x % 32768 % 65536 % 65536)) 0 (258)) 257 (y % 32768 % 65536 % 65536)) 0 (257), 256, wsub (y % 32768 % 65536 % 65536 % 65536) (x % 32768 % 65536 % 65536), 22⟩ : MState)).trans (congrArg (run (cmpInstr j x y) 7) (cmpStepF2 x y j)))).trans
    ((runStep (cmpInstr j x y) 6 (⟨upd (upd (upd (upd (upd (upd (cmpInit.ram) 0 (257)) 256 (x % 32768 % 65536 % 65536)) 0 (258)) 257 (y % 32768 % 65536 % 65536)) 0 (257)) 256 (0), 256, wsub (y % 32768 % 65536 % 65536 % 65536) (x % 32768 % 65536 % 65536), 23⟩ : MState)).trans (congrArg (run (cmpInstr j x y) 6) (cmpStepF3 x y j)))).trans
    ((runStep (cmpInstr j x y) 5 (⟨upd (upd (upd (upd (upd (upd (cmpInit.ram) 0 (257)) 256 (x % 32768 % 65536 % 65536)) 0 (258)) 257 (y % 32768 % 65536 % 65536)) 0 (257)) 256 (0), 28, wsub (y % 32768 % 65536 % 65536 % 65536) (x % 32768 % 65536 % 65536), 24⟩ : MState)).trans (congrArg (run (cmpInstr j x y) 5) (cmpStepF4 x y j)))).trans
    (run_none (cmpInstr j x y) 5 (⟨upd (upd (upd (upd (upd (upd (cmpInit.ram) 0 (257)) 256 (x % 32768 % 65536 % 65536)) 0 (258)) 257 (y % 32768 % 65536 % 65536)) 0 (257)) 256 (0), 28, wsub (y % 32768 % 65536 % 65536 % 65536) (x % 32768 % 65536 % 65536), 28⟩ : MState) rfl))

/- Helper: the comparison jump condition, taken case for lt (JGT on
   top-minus-second). -/
theorem ltTaken (x y : Nat) (hx : x < 32768) (hy : y < 32768) (hlt : x < y) :
    jumpTaken Jump.jgt (wsub (y % 32768 % 65536) (x % 32768 % 65536) % 65536) = true := by
  simp only [jumpTaken, signedView, wsub, decide_eq_true_eq]
  split_ifs <;> omega

/- Helper: the lt jump condition, fall-through case. -/
theorem ltNotTaken (x y : Nat) (hx : x < 32768) (hy : y < 32768) (hge : y ≤ x) :
    jumpTaken Jump.jgt (wsub (y % 32768 % 65536) (x % 32768 % 65536) % 65536) = false := by
  simp only [jumpTaken, signedView, wsub]
  rw [decide_eq_false_iff_not]
  split_ifs <;> omega

/- Helper: the gt jump condition (JLT on the same difference), taken
   case. -/
theorem gtTaken (x y : Nat) (hx : x < 32768) (hy : y < 32768) (hlt : y < x) :
    jumpTaken Jump.jlt (wsub (y % 32768 % 65536) (x % 32768 % 65536) % 65536) = true := by
  simp only [jumpTaken, signedView, wsub, decide_eq_true_eq]
  split_ifs <;> omega

/- Helper: the gt jump condition, fall-through case. -/
theorem gtNotTaken (x y : Nat) (hx : x < 32768) (hy : y < 32768) (hge : x ≤ y) :
    jumpTaken Jump.jlt (wsub (y % 32768 % 65536) (x % 32768 % 65536) % 65536) = false := by
  simp only [jumpTaken, signedView, wsub]
  rw [decide_eq_false_iff_not]
  split_ifs <;> omega

/- Helper: the conditional jump step when the branch is taken. -/
theorem cmpJumpT (x y : Nat) (j : Jump)
    (hj : jumpTaken j (wsub (y % 32768 % 65536) (x % 32768 % 65536) % 65536) = true) :
    step1 (cmpInstr j x y) (⟨upd (upd (upd (upd (upd (cmpInit.ram) 0 (257)) 256 (x % 32768 % 65536 % 65536)) 0 (258)) 257 (y % 32768 % 65536 % 65536)) 0 (257), 25, wsub (y % 32768 % 65536 % 65536 % 65536) (x % 32768 % 65536 % 65536), 19⟩ : MState) = (⟨upd (upd (upd (upd (upd (cmpInit.ram) 0 (257)) 256 (x % 32768 % 65536 % 65536)) 0 (258)) 257 (y % 32768 % 65536 % 65536)) 0 (257), 25, wsub (y % 32768 % 65536 % 65536 % 65536) (x % 32768 % 65536 % 65536), 25⟩ : MState) := by
  simp only [step1, cmpInstr, stepInstr, evalComp, applyDest, n16]
  norm_num [MState.mk.injEq, hj]

/- Helper: the conditional jump step when it falls through. -/
theorem cmpJumpF (x y : Nat) (j : Jump)
    (hj : jumpTaken j (wsub (y % 32768 % 65536) (x % 32768 % 65536) % 65536) = false) :
    step1 (cmpInstr j x y) (⟨upd (upd (upd (upd (upd (cmpInit.ram) 0 (257)) 256 (x % 32768 % 65536 % 65536)) 0 (258)) 257 (y % 32768 % 65536 % 65536)) 0 (257), 25, wsub (y % 32768 % 65536 % 65536 % 65536) (x % 32768 % 65536 % 65536), 19⟩ : MState) = (⟨upd (upd (upd (upd (upd (cmpInit.ram) 0 (257)) 256 (x % 32768 % 65536 % 65536)) 0 (258)) 257 (y % 32768 % 65536 % 65536)) 0 (257), 25, wsub (y % 32768 % 65536 % 65536 % 65536) (x % 32768 % 65536 % 65536), 20⟩ : MState) := by
  simp only [step1, cmpInstr, stepInstr, evalComp, applyDest, n16]
  norm_num [MState.mk.injEq, hj]

/- Helper: full execution of the lt translation when x < y. -/
theorem cmpExecLtT (x y : Nat) (hx : x < 32768) (hy : y < 32768) (hlt : x < y) :
    run (cmpInstr .jgt x y) 30 cmpInit = (⟨upd (upd (upd (upd (upd (upd (cmpInit.ram) 0 (257)) 256 (x % 32768 % 65536 % 65536)) 0 (258)) 257 (y % 32768 % 65536 % 65536)) 0 (257)) 256 (65535), 256, wsub (y % 32768 % 65536 % 65536 % 65536) (x % 32768 % 65536 % 65536), 28⟩ : MState) :=
  (cmpShared x y .jgt).trans
    (((runStep (cmpInstr .jgt x y) 10 (⟨upd (upd (upd (upd (upd (cmpInit.ram) 0 (257)) 256 (x % 32768 % 65536 % 65536)) 0 (258)) 257 (y % 32768 % 65536 % 65536)) 0 (257), 25, wsub (y % 32768 % 65536 % 65536 % 65536) (x % 32768 % 65536 % 65536), 19⟩ : MState)).trans
      (congrArg (run (cmpInstr .jgt x y) 10)
        (cmpJumpT x y .jgt (ltTaken x y hx hy hlt)))).trans
      (cmpTrueTail x y .jgt))

/- Helper: full execution of the lt translation when y ≤ x. -/
theorem cmpExecLtF (x y : Nat) (hx : x < 32768) (hy : y < 32768) (hge : y ≤ x) :
    run (cmpInstr .jgt x y) 30 cmpInit = (⟨upd (upd (upd (upd (upd (upd (cmpInit.ram) 0 (257)) 256 (x % 32768 % 65536 % 65536)) 0 (258)) 257 (y % 32768 % 65536 % 65536)) 0 (257)) 256 (0), 28, wsub (y % 32768 % 65536 % 65536 % 65536) (x % 32768 % 65536 % 65536), 28⟩ : MState) :=
  (cmpShared x y .jgt).trans
    (((runStep (cmpInstr .jgt x y) 10 (⟨upd (upd (upd (upd (upd (cmpInit.ram) 0 (257)) 256 (x % 32768 % 65536 % 65536)) 0 (258)) 257 (y % 32768 % 65536 % 65536)) 0 (257), 25, wsub (y % 32768 % 65536 % 65536 % 65536) (x % 32768 % 65536 % 65536), 19⟩ : MState)).trans
      (congrArg (run (cmpInstr .jgt x y) 10)
        (cmpJumpF x y .jgt (ltNotTaken x y hx hy hge)))).trans
      (cmpFalseTail x y .jgt))

/- Helper: full execution of the gt translation when y < x. -/
theorem cmpExecGtT (x y : Nat) (hx : x < 32768) (hy : y < 32768) (hlt : y < x) :
    run (cmpInstr .jlt x y) 30 cmpInit = (⟨upd (upd (upd (upd (upd (upd (cmpInit.ram) 0 (257)) 256 (x % 32768 % 65536 % 65536)) 0 (258)) 257 (y % 32768 % 65536 % 65536)) 0 (257)) 256 (65535), 256, wsub (y % 32768 % 65536 % 65536 % 65536) (x % 32768 % 65536 % 65536), 28⟩ : MState) :=
  (cmpShared x y .jlt).trans
    (((runStep (cmpInstr .jlt x y) 10 (⟨upd (upd (upd (upd (upd (cmpInit.ram) 0 (257)) 256 (x % 32768 % 65536 % 65536)) 0 (258)) 257 (y % 32768 % 65536 % 65536)) 0 (257), 25, wsub (y % 32768 % 65536 % 65536 % 65536) (x % 32768 % 65536 % 65536), 19⟩ : MState)).trans
      (congrArg (run (cmpInstr .jlt x y) 10)
        (cmpJumpT x y .jlt (gtTaken x y hx hy hlt)))).trans
      (cmpTrueTail x y .jlt))

/- Helper: full execution of the gt translation when x ≤ y. -/
theorem cmpExecGtF (x y : Nat) (hx : x < 32768) (hy : y < 32768) (hge : x ≤ y) :
    run (cmpInstr .jlt x y) 30 cmpInit = (⟨upd (upd (upd (upd (upd (upd (cmpInit.ram) 0 (257)) 256 (x % 32768 % 65536 % 65536)) 0 (258)) 257 (y % 32768 % 65536 % 65536)) 0 (257)) 256 (0), 28, wsub (y % 32768 % 65536 % 65536 % 65536) (x % 32768 % 65536 % 65536), 28⟩ : MState) :=
  (cmpShared x y .jlt).trans
    (((runStep (cmpInstr .jlt x y) 10 (⟨upd (upd (upd (upd (upd (cmpInit.ram) 0 (257)) 256 (x % 32768 % 65536 % 65536)) 0 (258)) 257 (y % 32768 % 65536 % 65536)) 0 (257), 25, wsub (y % 32768 % 65536 % 65536 % 65536) (x % 32768 % 65536 % 65536), 19⟩ : MState)).trans
      (congrArg (run (cmpInstr .jlt x y) 10)
        (cmpJumpF x y .jlt (gtNotTaken x y hx hy hge)))).trans
      (cmpFalseTail x y .jlt))

/-- Claim C3 (amended): less-than is translated with the difference
(top-of-stack minus second-from-top) and a JGT branch, greater-than with
the same difference and a JLT branch; executing the emitted comparison on
two pushed constants leaves all-one bits exactly when the comparison
holds and all-zero bits otherwise, with a net stack effect of minus one.
The rendered structured programs equal the emitted text. -/
theorem cmp_direction (x y : Nat) (hx : x < 32768) (hy : y < 32768) :
    runWriter (mkCodeWriter "Foo.asm") [.push "constant" x, .push "constant" y, .arith "lt"] =
      some (renderProg (cmpProgA .jgt x y),
        { filename := "Foo.asm", arithmeticCounter := 1, callCounter := 0 }) ∧
    runWriter (mkCodeWriter "Foo.asm") [.push "constant" x, .push "constant" y, .arith "gt"] =
      some (renderProg (cmpProgA .jlt x y),
        { filename := "Foo.asm", arithmeticCounter := 1, callCounter := 0 }) ∧
    (run (assemble (cmpProgA .jgt x y)) 30 cmpInit).ram 256 =
      (if x < y then 65535 else 0) ∧
    (run (assemble (cmpProgA .jgt x y)) 30 cmpInit).ram 0 = 257 ∧
    (run (assemble (cmpProgA .jlt x y)) 30 cmpInit).ram 256 =
      (if y < x then 65535 else 0) ∧
    (run (assemble (cmpProgA .jlt x y)) 30 cmpInit).ram 0 = 257 := by
  have hasmG : assemble (cmpProgA .jgt x y) = cmpInstr .jgt x y := rfl
  have hasmL : assemble (cmpProgA .jlt x y) = cmpInstr .jlt x y := rfl
  refine ⟨?_, ?_, ?_, ?_, ?_, ?_⟩
  · have hb : runWriter (mkCodeWriter "Foo.asm")
        [.push "constant" x, .push "constant" y, .arith "lt"] =
        some (("@" ++ toString x ++ "\nD=A\n" ++ pushCmds) ++
          (("@" ++ toString y ++ "\nD=A\n" ++ pushCmds) ++
            ("@SP\nM=M-1\nA=M\nD=M\nA=A-1\nD=D-M\n@TRUE0\nD;JGT\n@SP\nA=M-1\nM=0\n@Foo.END0\n0;JMP\n(TRUE0)\n@SP\nA=M-1\nM=-1\n(Foo.END0)\n" ++ "")),
          { filename := "Foo.asm", arithmeticCounter := 1, callCounter := 0 }) := rfl
    have hr : renderProg (cmpProgA .jgt x y) =
        "@" ++ toString x ++ "\n" ++
          ("D=A\n@SP\nM=M+1\nA=M-1\nM=D\n" ++
            ("@" ++ toString y ++ "\n" ++
              "D=A\n@SP\nM=M+1\nA=M-1\nM=D\n@SP\nM=M-1\nA=M\nD=M\nA=A-1\nD=D-M\n@TRUE0\nD;JGT\n@SP\nA=M-1\nM=0\n@Foo.END0\n0;JMP\n(TRUE0)\n@SP\nA=M-1\nM=-1\n(Foo.END0)\n")) := rfl
    rw [hb, hr]
    simp only [String.append_assoc]
    rfl
  · have hb : runWriter (mkCodeWriter "Foo.asm")
        [.push "constant" x, .push "constant" y, .arith "gt"] =
        some (("@" ++ toString x ++ "\nD=A\n" ++ pushCmds) ++
          (("@" ++ toString y ++ "\nD=A\n" ++ pushCmds) ++
            ("@SP\nM=M-1\nA=M\nD=M\nA=A-1\nD=D-M\n@TRUE0\nD;JLT\n@SP\nA=M-1\nM=0\n@Foo.END0\n0;JMP\n(TRUE0)\n@SP\nA=M-1\nM=-1\n(Foo.END0)\n" ++ "")),
          { filename := "Foo.asm", arithmeticCounter := 1, callCounter := 0 }) := rfl
    have hr : renderProg (cmpProgA .jlt x y) =
        "@" ++ toString x ++ "\n" ++
          ("D=A\n@SP\nM=M+1\nA=M-1\nM=D\n" ++
            ("@" ++ toString y ++ "\n" ++
              "D=A\n@SP\nM=M+1\nA=M-1\nM=D\n@SP\nM=M-1\nA=M\nD=M\nA=A-1\nD=D-M\n@TRUE0\nD;JLT\n@SP\nA=M-1\nM=0\n@Foo.END0\n0;JMP\n(TRUE0)\n@SP\nA=M-1\nM=-1\n(Foo.END0)\n")) := rfl
    rw [hb, hr]
    simp only [String.append_assoc]
    rfl
  · rw [hasmG]
    rcases Nat.lt_or_ge x y with hlt | hge
    · rw [cmpExecLtT x y hx hy hlt, if_pos hlt]
      simp [upd_self, upd_other]
    · rw [cmpExecLtF x y hx hy hge, if_neg (by omega)]
      simp [upd_self, upd_other]
  · rw [hasmG]
    rcases Nat.lt_or_ge x y with hlt | hge
    · rw [cmpExecLtT x y hx hy hlt]
      simp [upd_self, upd_other]
    · rw [cmpExecLtF x y hx hy hge]
      simp [upd_self, upd_other]
  · rw [hasmL]
    rcases Nat.lt_or_ge y x with hlt | hge
    · rw [cmpExecGtT x y hx hy hlt, if_pos hlt]
      simp [upd_self, upd_other]
    · rw [cmpExecGtF x y hx hy hge, if_neg (by omega)]
      simp [upd_self, upd_other]
  · rw [hasmL]
    rcases Nat.lt_or_ge y x with hlt | hge
    · rw [cmpExecGtT x y hx hy hlt]
      simp [upd_self, upd_other]
    · rw [cmpExecGtF x y hx hy hge]
      simp [upd_self, upd_other]

/-- Witness for C3 (amended) at x = 3, y = 4. -/
theorem cmp_direction_witness :
    runWriter (mkCodeWriter "Foo.asm") [.push "constant" 3, .push "constant" 4, .arith "lt"] =
      some (renderProg (cmpProgA .jgt 3 4),
        { filename := "Foo.asm", arithmeticCounter := 1, callCounter := 0 }) ∧
    runWriter (mkCodeWriter "Foo.asm") [.push "constant" 3, .push "constant" 4, .arith "gt"] =
      some (renderProg (cmpProgA .jlt 3 4),
        { filename := "Foo.asm", arithmeticCounter := 1, callCounter := 0 }) ∧
    (run (assemble (cmpProgA .jgt 3 4)) 30 cmpInit).ram 256 =
      (if 3 < 4 then 65535 else 0) ∧
    (run (assemble (cmpProgA .jgt 3 4)) 30 cmpInit).ram 0 = 257 ∧
    (run (assemble (cmpProgA .jlt 3 4)) 30 cmpInit).ram 256 =
      (if 4 < 3 then 65535 else 0) ∧
    (run (assemble (cmpProgA .jlt 3 4)) 30 cmpInit).ram 0 = 257 :=
  cmp_direction 3 4 (by norm_num) (by norm_num)

/-- Claim C3 (counterexample): executing the emitted translation of
push constant 3; push constant 4; lt leaves the all-ones true encoding on
top of the stack, while the rule stated by the claim — branch on
greater-than-zero of (second-from-top − top) — yields the all-zero false
encoding at the same input. -/
theorem lt_direction_claim_false :
    (run (assemble (cmpProgA .jgt 3 4)) 30 cmpInit).ram 256 = 65535 ∧
    specClaimedLtResult 3 4 = 0 ∧
    ((65535 : Nat) == (0 : Nat)) = false :=
  ⟨rfl, rfl, rfl⟩

set_option maxRecDepth 8000 in
/-- Claim C1 (code evaluated at the failing input): executing the emitted
call f 1 from a caller state with SP = 260, LCL = 300, ARG = 400,
THIS = 3000, THAT = 3010.  After the 38 straight-line instructions the
frame is corrupt: the slot at 260 that the convention reserves for the
return address holds the caller's LCL (the return-address push is computed
by write_call but never written), and the slots at 262 and 263 that should
save THIS and THAT hold 400 — the caller's ARG left in D — because
_compute_target_address ignores its register argument for the pointer
segment.  The final jump assembles to address 16, the memory cell the
assembler allocates for the unscoped variable symbol f, while
write_function would define only the module-scoped label Foo.f. -/
theorem call_frame_corruption :
    renderProg callProgA = ((writeCall (mkCodeWriter "Foo.asm") "f" 1).map Prod.fst).getD "" ∧
    writeFunction "Foo.asm" "f" 0 = some (writeLabel "Foo.f") ∧
    writeLabel "Foo.f" = "(Foo.f)\n" ∧
    assemble callProgA = callInstr ∧
    callInstr[38]? = some (.iA 16) ∧
    callInit.ram 1 = 300 ∧ callInit.ram 2 = 400 ∧
    callInit.ram 3 = 3000 ∧ callInit.ram 4 = 3010 ∧
    (run callInstr 38 callInit).ram 260 = 300 ∧
    (run callInstr 38 callInit).ram 261 = 400 ∧
    (run callInstr 38 callInit).ram 262 = 400 ∧
    (run callInstr 38 callInit).ram 263 = 400 ∧
    (run callInstr 38 callInit).ram 2 = 258 ∧
    (run callInstr 38 callInit).ram 1 = 264 ∧
    (run callInstr 38 callInit).ram 0 = 264 :=
  by refine ⟨?_, ?_, ?_, ?_, ?_, ?_, ?_, ?_, ?_, ?_, ?_, ?_, ?_, ?_, ?_, ?_⟩ <;> rfl
